import Mathlib

/-!
Verification of the AI-suggestion pipeline of the Monthly planning app.

This file gives a shallow embedding, in Lean, of the resilience layer
(`simple-cache.ts`, `simple-limiter.ts`, `simple-retry.ts`,
`fallback-handler.ts`), the generation service (`ai-service.ts`) and the
suggestion application engine (`suggestion-applicator.ts`), and proves
properties of the embedded definitions.

Modelling conventions:
* JavaScript promises/exceptions are modelled by explicit state passing and
  `Option String` / `Except String` values carrying the thrown error message.
* `Date.now()` is modelled by a `Nat` number of milliseconds supplied by the
  caller; calendar dates are modelled by a `Nat` day offset together with an
  abstract ISO formatting function supplied by the environment.
* JavaScript `Map`s are modelled by association lists (the cache, where the
  entry count is observable through `stats.size`) or by total functions with
  pointwise update (the rate limiter, where only lookups are observable).
* The database is modelled by an oracle environment: every store call is
  recorded in a trace, and an oracle decides, by call index, whether the call
  throws (and with which message).
-/

namespace Monthly

/-- The task priority union type of the repository (`"low" | "medium" | "high"`). -/
inductive Priority where
  | low
  | medium
  | high
  deriving DecidableEq, Repr

/-! ### JavaScript string primitives used by the source -/

/-- JavaScript `String.prototype.toLowerCase`, restricted to the per-character
lowering Lean provides (identical on the ASCII data the source manipulates). -/
def lowerStr (s : String) : String :=
  String.mk (s.toList.map Char.toLower)

/-- Whether the pattern list occurs at the head of the text list. -/
def charsMatchHead : List Char → List Char → Bool
  | [], _ => true
  | _ :: _, [] => false
  | a :: as, b :: bs => a == b && charsMatchHead as bs

/-- Whether the pattern list occurs anywhere inside the text list. -/
def hasSubChars (pat : List Char) : List Char → Bool
  | [] => charsMatchHead pat []
  | c :: cs => charsMatchHead pat (c :: cs) || hasSubChars pat cs

/-- JavaScript `String.prototype.includes`. -/
def strIncludes (hay pat : String) : Bool :=
  hasSubChars pat.toList hay.toList

/-- Splitting on a maximal run of delimiter characters, as the regular
expressions `/[.!?]+/` and `/[\n\r]+/` of `fallback-handler.ts` do.
`acc` is the current segment (reversed); `inRun` records whether the previous
character was a delimiter, so that runs produce a single boundary. -/
def splitRunsGo (p : Char → Bool) : List Char → List Char → Bool → List String
  | [], acc, _ => [String.mk acc.reverse]
  | c :: cs, acc, inRun =>
    if p c then
      if inRun then splitRunsGo p cs acc true
      else String.mk acc.reverse :: splitRunsGo p cs [] true
    else splitRunsGo p cs (c :: acc) false

/-- JavaScript `s.split(regex)` where the regex is one character class with
the `+` quantifier. -/
def splitRuns (p : Char → Bool) (s : String) : List String :=
  splitRunsGo p s.toList [] false

/-- JavaScript `String.prototype.trim` (whitespace stripped from both ends),
implemented over the character list because the corresponding core `String`
function does not reduce inside the kernel. -/
def jsTrim (s : String) : String :=
  String.mk (((s.toList.dropWhile Char.isWhitespace).reverse.dropWhile
    Char.isWhitespace).reverse)

/-- JavaScript falsy-or on strings: `s || d` is `d` when `s` is empty. -/
def jsOr (s d : String) : String :=
  if s = "" then d else s

/-- JavaScript truthiness of an optional string (`undefined` and `""` are falsy). -/
def jsTruthy : Option String → Bool
  | none => false
  | some s => s ≠ ""

/-! ## Result Cache (`packages/api/src/cache/simple-cache.ts`) -/

/-- One cache entry, mirroring `CacheEntry<T>` of `simple-cache.ts`. -/
structure CacheEntry (α : Type) where
  data : α
  timestamp : Nat
  ttl : Nat
  deriving Repr, DecidableEq

/-- Mirror of `CacheStats` of `simple-cache.ts`. -/
structure CacheStats where
  hits : Nat
  misses : Nat
  size : Nat
  deriving Repr, DecidableEq

/-- State of one `SimpleCache` instance: the backing `Map` (as an association
list with unique keys) and the statistics counters. -/
structure SimpleCacheState (α : Type) where
  entries : List (String × CacheEntry α)
  stats : CacheStats
  deriving Repr, DecidableEq

namespace SimpleCache

/-- The empty cache (`new SimpleCache()`). -/
def init (α : Type) : SimpleCacheState α :=
  { entries := [], stats := { hits := 0, misses := 0, size := 0 } }

/-- Lookup in the backing map (`this.cache.get(key)`). -/
def lookupEntry {α : Type} (es : List (String × CacheEntry α)) (key : String) :
    Option (CacheEntry α) :=
  (es.find? (fun p => p.1 == key)).map (fun p => p.2)

/-- Removal from the backing map (`this.cache.delete(key)` semantics: every
binding of the key disappears). -/
def eraseKey {α : Type} (es : List (String × CacheEntry α)) (key : String) :
    List (String × CacheEntry α) :=
  es.filter (fun p => p.1 != key)

/-- `SimpleCache.get`, at wall-clock time `now`: a missing entry counts a miss,
an entry with `now - timestamp > ttl` is deleted and counts a miss, otherwise
the entry's data is returned and a hit is counted. -/
def get {α : Type} (c : SimpleCacheState α) (now : Nat) (key : String) :
    Option α × SimpleCacheState α :=
  match lookupEntry c.entries key with
  | none =>
    (none, { c with stats := { c.stats with misses := c.stats.misses + 1 } })
  | some entry =>
    if entry.ttl < now - entry.timestamp then
      let es := eraseKey c.entries key
      let stats1 := { c.stats with misses := c.stats.misses + 1, size := es.length }
      (none, { entries := es, stats := stats1 })
    else
      (some entry.data,
       { c with stats := { c.stats with hits := c.stats.hits + 1 } })

/-- `SimpleCache.set`: stores the entry with `timestamp := now` and the given
ttl, then refreshes `stats.size`. (A `Map.set` on an existing key overwrites
in place; the association list keeps the same bindings up to order, which no
claim observes.) -/
def set {α : Type} (c : SimpleCacheState α) (key : String) (data : α)
    (ttlMs : Nat) (now : Nat) : SimpleCacheState α :=
  let es := eraseKey c.entries key ++ [(key, (⟨data, now, ttlMs⟩ : CacheEntry α))]
  { entries := es, stats := { c.stats with size := es.length } }

/-- Stringification of one parameter for `SimpleCache.generateKey`; parameters
arrive already rendered the way a JavaScript template literal renders them. -/
def generateKey (prefixStr : String) (params : List (String × String)) : String :=
  let sortedParams :=
    (params.mergeSort (fun a b => decide (a.1 ≤ b.1))).map
      (fun p => p.1 ++ ":" ++ p.2)
  prefixStr ++ ":" ++ String.intercalate "|" sortedParams

end SimpleCache

/-- Per-kind cache TTLs (`CACHE_TTL` of `simple-cache.ts`), in milliseconds. -/
def CACHE_TTL_PLAN_GENERATION : Nat := 2 * 60 * 60 * 1000

/-! ## Rate Limiter (`packages/api/src/rate-limiting/simple-limiter.ts`) -/

/-- The three per-kind endpoints of the limiter
(`keyof Omit<UserRateLimit, "daily" | "monthly">`). -/
inductive Endpoint where
  | plan
  | briefing
  | reschedule
  deriving DecidableEq, Repr

/-- Mirror of `UserRateLimit`. -/
structure UserRateLimit where
  daily : Nat
  monthly : Nat
  plan : Nat
  briefing : Nat
  reschedule : Nat
  deriving DecidableEq, Repr

/-- `limits[endpoint]` for a per-kind endpoint. -/
def endpointLimit (l : UserRateLimit) : Endpoint → Nat
  | .plan => l.plan
  | .briefing => l.briefing
  | .reschedule => l.reschedule

/-- The two `Date` values `checkLimit` can put into `resetTime`
(next midnight / first of next month), kept symbolic. -/
inductive ResetTime where
  | nextMidnight
  | firstOfNextMonth
  deriving DecidableEq, Repr

/-- Mirror of `RateLimitStatus` (with the symbolic `resetTime`). -/
structure RateLimitStatus where
  allowed : Bool
  remaining : Int
  resetTime : ResetTime
  limit : Nat
  currentUsage : Nat
  deriving DecidableEq, Repr

/-- State of one `SimpleRateLimiter`: the constructor's default limits and the
three usage `Map`s, modelled as total functions (an absent key reads as the
`Map`'s default: `undefined`, hence `0` usage / no custom limits). -/
structure LimiterState where
  defaultLimits : UserRateLimit
  userLimits : String → Option UserRateLimit
  dailyUsage : String → Endpoint → Nat
  monthlyUsage : String → Nat

/-- Pointwise function update (the effect of `Map.set`). -/
def updFn {β : Type} (f : String → β) (k : String) (v : β) : String → β :=
  fun x => if x = k then v else f x

namespace SimpleRateLimiter

/-- A limiter with no usage recorded yet. -/
def init (defaults : UserRateLimit) : LimiterState :=
  { defaultLimits := defaults,
    userLimits := fun _ => none,
    dailyUsage := fun _ _ => 0,
    monthlyUsage := fun _ => 0 }

/-- The `Array.from(dailyUsage.values()).reduce(...)` total: only per-kind
endpoints are ever recorded, so the total is the sum over the three kinds. -/
def totalDailyUsage (st : LimiterState) (userId : String) : Nat :=
  st.dailyUsage userId .plan + st.dailyUsage userId .briefing +
    st.dailyUsage userId .reschedule

/-- `SimpleRateLimiter.checkLimit`. Returns the status and the state after the
method's benign write-back of the user's effective limits. -/
def checkLimit (st : LimiterState) (userId : String) (endpoint : Endpoint) :
    RateLimitStatus × LimiterState :=
  let limits := (st.userLimits userId).getD st.defaultLimits
  let st1 := { st with userLimits := updFn st.userLimits userId (some limits) }
  let endpointLim := endpointLimit limits endpoint
  let endpointUsage := st.dailyUsage userId endpoint
  let totalDaily := totalDailyUsage st userId
  let monthly := st.monthlyUsage userId
  let dailyLimitExceeded : Bool := decide (limits.daily ≤ totalDaily)
  let monthlyLimitExceeded : Bool := decide (limits.monthly ≤ monthly)
  let endpointLimitExceeded : Bool := decide (endpointLim ≤ endpointUsage)
  let allowed := !dailyLimitExceeded && !monthlyLimitExceeded && !endpointLimitExceeded
  let remaining : Int :=
    min (min ((limits.daily : Int) - totalDaily) ((limits.monthly : Int) - monthly))
      ((endpointLim : Int) - endpointUsage)
  let resetTime := if dailyLimitExceeded then ResetTime.nextMidnight
    else ResetTime.firstOfNextMonth
  ({ allowed := allowed,
     remaining := max 0 remaining,
     resetTime := resetTime,
     limit := endpointLim,
     currentUsage := endpointUsage }, st1)

/-- `SimpleRateLimiter.recordUsage`: bumps the per-kind daily counter and the
monthly counter of the user. -/
def recordUsage (st : LimiterState) (userId : String) (endpoint : Endpoint) :
    LimiterState :=
  { st with
    dailyUsage := updFn st.dailyUsage userId
      (fun e => if e = endpoint then st.dailyUsage userId endpoint + 1
        else st.dailyUsage userId e),
    monthlyUsage := updFn st.monthlyUsage userId (st.monthlyUsage userId + 1) }

end SimpleRateLimiter

/-- `DEFAULT_RATE_LIMITS` of `simple-limiter.ts`. -/
def DEFAULT_RATE_LIMITS : UserRateLimit :=
  { daily := 20, monthly := 300, plan := 5, briefing := 10, reschedule := 5 }

/-! ## Retry Engine (`packages/api/src/error-handling/simple-retry.ts`) -/

/-- Mirror of `RetryOptions`; delays are rationals because the network
strategy uses the backoff factor 1.5. -/
structure RetryOptions where
  maxAttempts : Nat
  baseDelay : ℚ
  maxDelay : ℚ
  backoffFactor : ℚ
  deriving DecidableEq, Repr

/-- Mirror of `Partial<RetryOptions>`. -/
structure RetryOptionsPartial where
  maxAttempts : Option Nat := none
  baseDelay : Option ℚ := none
  maxDelay : Option ℚ := none
  backoffFactor : Option ℚ := none
  deriving DecidableEq, Repr

/-- The spread `{ ...base, ...p }` merging a partial options object over a
complete one. -/
def mergeOptions (base : RetryOptions) (p : RetryOptionsPartial) : RetryOptions :=
  { maxAttempts := p.maxAttempts.getD base.maxAttempts,
    baseDelay := p.baseDelay.getD base.baseDelay,
    maxDelay := p.maxDelay.getD base.maxDelay,
    backoffFactor := p.backoffFactor.getD base.backoffFactor }

/-- Mirror of `RetryResult<T>`. `data`/`error` are the optional fields of the
source; the thrown error is represented by its message. -/
structure RetryResult (α : Type) where
  success : Bool
  data : Option α
  error : Option String
  attempts : Nat
  totalDelay : ℚ
  deriving DecidableEq, Repr

/-- The error classes of `executeWithStrategy`. -/
inductive RetryErrorType where
  | network
  | rateLimit
  | aiService
  | unknownKind
  deriving DecidableEq, Repr

namespace SimpleRetry

/-- `SimpleRetry.DEFAULT_OPTIONS`. -/
def DEFAULT_OPTIONS : RetryOptions :=
  { maxAttempts := 3, baseDelay := 1000, maxDelay := 10000, backoffFactor := 2 }

/-- The `noRetryMessages` list of `shouldNotRetry`. -/
def noRetryMessages : List String :=
  ["invalid api key", "insufficient credits", "invalid request format",
   "authentication failed", "unauthorized"]

/-- `SimpleRetry.shouldNotRetry`, on the raised error's message. -/
def shouldNotRetry (message : String) : Bool :=
  noRetryMessages.any (fun m => strIncludes (lowerStr message) m)

/-- The retry loop of `SimpleRetry.execute`. The effectful operation is a
state transformer `op : σ → Except String α × σ` (for an operation that counts
its own invocations, take `σ := Nat`). `fuel` is the number of attempts still
permitted, `attempt` the 1-indexed number of the attempt about to run,
`lastErr` the error of the previous attempt. A non-retryable error and attempt
exhaustion both leave the loop; the failure record reports
`attempts := opts.maxAttempts` exactly as the source does. -/
def executeAux {σ α : Type} (op : σ → Except String α × σ) (opts : RetryOptions) :
    Nat → Nat → Option String → ℚ → σ → RetryResult α × σ
  | 0, _, lastErr, totalDelay, s =>
    ({ success := false, data := none, error := lastErr,
       attempts := opts.maxAttempts, totalDelay := totalDelay }, s)
  | fuel + 1, attempt, _, totalDelay, s =>
    match op s with
    | (.ok d, s1) =>
      ({ success := true, data := some d, error := none,
         attempts := attempt, totalDelay := totalDelay }, s1)
    | (.error e, s1) =>
      if shouldNotRetry e then
        ({ success := false, data := none, error := some e,
           attempts := opts.maxAttempts, totalDelay := totalDelay }, s1)
      else if fuel = 0 then
        ({ success := false, data := none, error := some e,
           attempts := opts.maxAttempts, totalDelay := totalDelay }, s1)
      else
        let delay := min (opts.baseDelay * opts.backoffFactor ^ (attempt - 1)) opts.maxDelay
        executeAux op opts fuel (attempt + 1) (some e) (totalDelay + delay) s1

/-- `SimpleRetry.execute` with the source's defaulting of partial options. -/
def execute {σ α : Type} (op : σ → Except String α × σ) (options : RetryOptionsPartial)
    (s : σ) : RetryResult α × σ :=
  let opts := mergeOptions DEFAULT_OPTIONS options
  executeAux op opts opts.maxAttempts 1 none 0 s

/-- `SimpleRetry.getStrategyOptions`. -/
def getStrategyOptions (errorType : RetryErrorType) (baseOptions : RetryOptionsPartial) :
    RetryOptionsPartial :=
  match errorType with
  | .network =>
    { baseOptions with maxAttempts := some 5, baseDelay := some 500,
                       backoffFactor := some (3 / 2) }
  | .rateLimit =>
    { baseOptions with maxAttempts := some 2, baseDelay := some 5000,
                       backoffFactor := some 2 }
  | .aiService =>
    { baseOptions with maxAttempts := some 3, baseDelay := some 2000,
                       backoffFactor := some 2 }
  | .unknownKind => baseOptions

/-- `SimpleRetry.executeWithStrategy`. -/
def executeWithStrategy {σ α : Type} (op : σ → Except String α × σ)
    (errorType : RetryErrorType) (options : RetryOptionsPartial) (s : σ) :
    RetryResult α × σ :=
  execute op (getStrategyOptions errorType options) s

/-- The delay the engine sleeps before the attempt numbered `attempt`
(1-indexed), per the exponential backoff formula of `execute`. -/
def attemptDelay (opts : RetryOptions) (attempt : Nat) : ℚ :=
  min (opts.baseDelay * opts.backoffFactor ^ (attempt - 1)) opts.maxDelay

/-- Total delay slept before attempts `attempt, attempt+1, ...` over `count`
retried attempts. -/
def delaysFrom (opts : RetryOptions) : Nat → Nat → ℚ
  | _, 0 => 0
  | attempt, count + 1 => attemptDelay opts attempt + delaysFrom opts (attempt + 1) count

end SimpleRetry

/-! ## Fallback Generator (`packages/api/src/error-handling/fallback-handler.ts`) -/

/-- One task of `PlanSuggestionContent` (`packages/db/src/types.ts`). -/
structure PlanTask where
  title : String
  priority : Priority
  dueDate : Option String
  deriving DecidableEq, Repr

/-- One goal of `PlanSuggestionContent`. -/
structure PlanGoal where
  title : String
  description : String
  category : String
  tasks : List PlanTask
  deriving DecidableEq, Repr

/-- Mirror of `PlanSuggestionContent`. -/
structure PlanContent where
  goals : List PlanGoal
  deriving DecidableEq, Repr

/-- Mirror of `FallbackResult<T>` (without the unused `savedForRetry`). -/
structure FallbackResult (α : Type) where
  success : Bool
  data : Option α
  fallbackUsed : Bool
  message : String
  deriving DecidableEq, Repr

namespace FallbackHandler

/-- The bullet-marker strip `point.replace(/^[-*•]\s*/, "")` followed by the
`.trim()` the source applies to each bullet line. -/
def stripBullet (s : String) : String :=
  let stripped :=
    match s.toList with
    | [] => s
    | c :: rest =>
      if c = '-' ∨ c = '*' ∨ c = '•' then String.mk (rest.dropWhile Char.isWhitespace)
      else s
  jsTrim stripped

/-- `FallbackHandler.extractGoals`: bullet lines preferred, then up to five
sentences, then one generic goal; capped at five. -/
def extractGoals (userGoals : String) : List String :=
  let sentences :=
    (splitRuns (fun c => c == '.' || c == '!' || c == '?') userGoals).filter
      (fun s => 0 < (jsTrim s).length)
  let bulletPoints :=
    (splitRuns (fun c => c == '\n' || c == '\r') userGoals).filter
      (fun s => 0 < (jsTrim s).length)
  let goals1 : List String :=
    if 1 < bulletPoints.length then
      (bulletPoints.map stripBullet).filter (fun g => 0 < g.length)
    else []
  let goals2 :=
    if goals1.length = 0 ∧ 0 < sentences.length then sentences.take 5 else goals1
  let goals3 :=
    if goals2.length = 0 then ["Complete my monthly objectives"] else goals2
  goals3.take 5

/-- `FallbackHandler.generateTasksForGoal`. Dates are day offsets from the
abstractly supplied `today`, rendered by the abstract ISO formatter `isoDate`
(the model of `date.toISOString().split("T")[0]`). -/
def generateTasksForGoal (goal : String) (weekNumber : Nat) (today : Nat)
    (isoDate : Nat → String) : List PlanTask :=
  let taskTemplates :=
    ["Research and plan " ++ lowerStr goal,
     "Start working on " ++ lowerStr goal,
     "Make progress on " ++ lowerStr goal,
     "Complete " ++ lowerStr goal ++ " milestone",
     "Review and finalize " ++ lowerStr goal]
  (taskTemplates.take 3).enum.map (fun p =>
    { title := p.2,
      priority := if p.1 = 0 then Priority.high
        else if p.1 = 1 then Priority.medium else Priority.low,
      dueDate := some (isoDate (today + (weekNumber - 1) * 7 + p.1 * 2)) })

/-- `FallbackHandler.generatePlanFallback`. The body is pure, so the
surrounding `try` never fires and the result is always a success. -/
def generatePlanFallback (userGoals : String) (today : Nat) (isoDate : Nat → String) :
    FallbackResult PlanContent :=
  let goals := extractGoals userGoals
  let fallbackPlan : PlanContent :=
    { goals := goals.enum.map (fun p =>
        { title := p.2,
          description := "Goal based on your input: " ++ p.2,
          category := "personal",
          tasks := generateTasksForGoal p.2 (p.1 + 1) today isoDate }) }
  { success := true,
    data := some fallbackPlan,
    fallbackUsed := true,
    message := "AI service unavailable - Generated template plan based on your goals" }

end FallbackHandler

/-! ## Suggestion content (`packages/db/src/types.ts`) -/

/-- One entry of `BriefingSuggestionContent.todaysTasks`. -/
structure BriefingTask where
  taskId : String
  title : String
  priority : Priority
  deriving DecidableEq, Repr

/-- Mirror of `BriefingSuggestionContent` (deadline/habit sections are opaque
records the application engine never reads). -/
structure BriefingContent where
  summary : String
  todaysTasks : List BriefingTask
  upcomingDeadlines : List (String × String)
  habitReminders : List (String × String × Nat × Nat)
  deriving DecidableEq, Repr

/-- One entry of `RescheduleSuggestionContent.affectedTasks`. -/
structure RescheduleTask where
  taskId : String
  currentDueDate : String
  suggestedDueDate : String
  deriving DecidableEq, Repr

/-- One entry of `RescheduleSuggestionContent.affectedEvents`. -/
structure RescheduleEvent where
  eventId : String
  currentStartTime : String
  suggestedStartTime : String
  suggestedEndTime : Option String
  deriving DecidableEq, Repr

/-- Mirror of `RescheduleSuggestionContent`. -/
structure RescheduleContent where
  reason : String
  affectedTasks : List RescheduleTask
  affectedEvents : List RescheduleEvent
  deriving DecidableEq, Repr

/-- The tagged union of suggestion contents: `suggestion.type` together with
the correspondingly cast `suggestion.content`. -/
inductive SuggestionContent where
  | plan (c : PlanContent)
  | briefing (c : BriefingContent)
  | reschedule (c : RescheduleContent)
  deriving DecidableEq, Repr

/-- The part of an `AISuggestion` row the application engine reads. -/
structure Suggestion where
  userId : String
  content : SuggestionContent
  deriving DecidableEq, Repr

/-! ## Suggestion Application Engine (`suggestion-applicator.ts`) -/

/-- Mirror of `ApplySuggestionOptions`. -/
structure ApplyOptions where
  applyAll : Bool
  selectedItems : Option (List String) := none
  dryRun : Bool := false
  deriving DecidableEq, Repr

/-- Mirror of `ApplySuggestionResult`. The four optional counters default to
zero where the source leaves them absent; no claim distinguishes `undefined`
from `0`. -/
structure ApplyResult where
  success : Bool
  message : String
  appliedItems : List String
  skippedItems : List String
  errors : List String
  createdGoals : Nat := 0
  createdTasks : Nat := 0
  updatedTasks : Nat := 0
  updatedEvents : Nat := 0
  deriving DecidableEq, Repr

/-- One call the application engine makes against the store. -/
inductive StoreOp where
  | insertGoal (userId title : String)
  | insertTask (userId title : String)
  | updateTaskPriority (taskId : String) (priority : Priority)
  | updateTaskDueDate (taskId : String) (due : Option String)
  | updateEventTimes (eventId : String) (startTime endTime : Option String)
  | updateGoalProgress (goalId : String)
  | findGoalsByUser (userId : String)
  | findTasksByUser (userId : String)
  deriving DecidableEq, Repr

/-- The store oracle for the application engine: `callFails i` decides whether
the i-th store call (0-indexed, in program order) throws, and with which
message; the two read oracles give the rows the `find` queries return, as
`(id, title)` pairs. -/
structure ApplyEnv where
  callFails : Nat → Option String
  goalsByUser : String → List (String × String)
  tasksByUser : String → List (String × String)

/-- Store-interaction state: the index of the next call and the trace of the
calls made so far. -/
structure ApplySt where
  idx : Nat
  trace : List StoreOp
  deriving DecidableEq, Repr

/-- Perform one store call: record it and consult the failure oracle. -/
def storeCall (env : ApplyEnv) (op : StoreOp) (st : ApplySt) : Option String × ApplySt :=
  (env.callFails st.idx, { idx := st.idx + 1, trace := st.trace ++ [op] })

/-- The guard `!options.applyAll && options.selectedItems &&
!options.selectedItems.includes(x)` shared by all three apply loops. -/
def excludedBySelection (opts : ApplyOptions) (x : String) : Bool :=
  !opts.applyAll && opts.selectedItems.isSome && !((opts.selectedItems.getD []).contains x)

namespace SuggestionApplicator

/-- The per-goal catch message of `applyPlanSuggestion`. -/
def planGoalErr (title msg : String) : String :=
  "Failed to create goal \"" ++ title ++ "\": " ++ msg

/-- The inner task-creation loop of `applyPlanSuggestion`: inserts tasks until
one throws; a throw aborts the rest of this goal's tasks and surfaces the
message to the per-goal catch. -/
def insertTasksLoop (env : ApplyEnv) (uid : String) :
    List PlanTask → ApplyResult → ApplySt → ApplyResult × ApplySt × Option String
  | [], res, st => (res, st, none)
  | t :: ts, res, st =>
    match storeCall env (.insertTask uid t.title) st with
    | (some m, st1) => (res, st1, some m)
    | (none, st1) =>
      insertTasksLoop env uid ts { res with createdTasks := res.createdTasks + 1 } st1

/-- One iteration of the goal loop of `applyPlanSuggestion`, with the
surrounding per-goal `try`/`catch`. -/
def applyPlanGoal (env : ApplyEnv) (uid : String) (opts : ApplyOptions)
    (g : PlanGoal) (res : ApplyResult) (st : ApplySt) : ApplyResult × ApplySt :=
  if excludedBySelection opts g.title then
    ({ res with skippedItems := res.skippedItems ++ [g.title] }, st)
  else
    match storeCall env (.insertGoal uid g.title) st with
    | (some m, st1) =>
      ({ res with errors := res.errors ++ [planGoalErr g.title m],
                  skippedItems := res.skippedItems ++ [g.title] }, st1)
    | (none, st1) =>
      let res1 := { res with createdGoals := res.createdGoals + 1,
                             appliedItems := res.appliedItems ++ [g.title] }
      match insertTasksLoop env uid g.tasks res1 st1 with
      | (res2, st2, some m) =>
        ({ res2 with errors := res2.errors ++ [planGoalErr g.title m],
                     skippedItems := res2.skippedItems ++ [g.title] }, st2)
      | (res2, st2, none) => (res2, st2)

/-- The goal loop of `applyPlanSuggestion`. -/
def applyPlanGoals (env : ApplyEnv) (uid : String) (opts : ApplyOptions) :
    List PlanGoal → ApplyResult → ApplySt → ApplyResult × ApplySt
  | [], res, st => (res, st)
  | g :: gs, res, st =>
    let p := applyPlanGoal env uid opts g res st
    applyPlanGoals env uid opts gs p.1 p.2

/-- The progress-update pass at the end of `applyPlanSuggestion`: for each
applied goal it re-reads the user's goals and, on a title match, calls
`goalQueries.updateProgress`; every error is swallowed and the `ApplyResult`
is never touched. -/
def progressPhase (env : ApplyEnv) (uid : String) (applied : List String) :
    List PlanGoal → ApplySt → ApplySt
  | [], st => st
  | g :: gs, st =>
    if applied.contains g.title then
      match storeCall env (.findGoalsByUser uid) st with
      | (some _, st1) => progressPhase env uid applied gs st1
      | (none, st1) =>
        match (env.goalsByUser uid).find? (fun p => p.2 == g.title) with
        | some p =>
          let c := storeCall env (.updateGoalProgress p.1) st1
          progressPhase env uid applied gs c.2
        | none => progressPhase env uid applied gs st1
    else progressPhase env uid applied gs st

/-- `SuggestionApplicator.applyPlanSuggestion`. -/
def applyPlanSuggestion (env : ApplyEnv) (uid : String) (content : PlanContent)
    (opts : ApplyOptions) (st : ApplySt) : ApplyResult × ApplySt :=
  let res0 : ApplyResult :=
    { success := true, message := "Plan suggestion applied successfully",
      appliedItems := [], skippedItems := [], errors := [],
      createdGoals := 0, createdTasks := 0 }
  if opts.dryRun then
    ({ res0 with
       message := "Dry run: Would create " ++ toString content.goals.length ++ " goals" },
     st)
  else
    let p := applyPlanGoals env uid opts content.goals res0 st
    let st2 := progressPhase env uid p.1.appliedItems content.goals p.2
    let res2 :=
      if 0 < p.1.errors.length then
        { p.1 with success := false,
                   message := "Plan applied with " ++ toString p.1.errors.length ++ " errors" }
      else p.1
    (res2, st2)

/-- The per-item catch message of `applyBriefingSuggestion`. -/
def briefingErr (title msg : String) : String :=
  "Failed to update task \"" ++ title ++ "\": " ++ msg

/-- One iteration of the task loop of `applyBriefingSuggestion`. An empty
`taskId` is falsy, so such entries are resolved by matching the title against
the user's tasks. -/
def applyBriefingItem (env : ApplyEnv) (uid : String) (opts : ApplyOptions)
    (tu : BriefingTask) (res : ApplyResult) (st : ApplySt) : ApplyResult × ApplySt :=
  if excludedBySelection opts tu.taskId then
    ({ res with skippedItems := res.skippedItems ++ [tu.taskId] }, st)
  else if tu.taskId ≠ "" then
    match storeCall env (.updateTaskPriority tu.taskId tu.priority) st with
    | (some m, st1) =>
      ({ res with errors := res.errors ++ [briefingErr tu.title m],
                  skippedItems := res.skippedItems ++ [tu.title] }, st1)
    | (none, st1) =>
      ({ res with updatedTasks := res.updatedTasks + 1,
                  appliedItems := res.appliedItems ++ [tu.taskId] }, st1)
  else
    match storeCall env (.findTasksByUser uid) st with
    | (some m, st1) =>
      ({ res with errors := res.errors ++ [briefingErr tu.title m],
                  skippedItems := res.skippedItems ++ [tu.title] }, st1)
    | (none, st1) =>
      match (env.tasksByUser uid).find? (fun p => p.2 == tu.title) with
      | some p =>
        match storeCall env (.updateTaskPriority p.1 tu.priority) st1 with
        | (some m, st2) =>
          ({ res with errors := res.errors ++ [briefingErr tu.title m],
                      skippedItems := res.skippedItems ++ [tu.title] }, st2)
        | (none, st2) =>
          ({ res with updatedTasks := res.updatedTasks + 1,
                      appliedItems := res.appliedItems ++ [tu.title] }, st2)
      | none =>
        ({ res with skippedItems := res.skippedItems ++ [tu.title] }, st1)

/-- The task loop of `applyBriefingSuggestion`. -/
def applyBriefingItems (env : ApplyEnv) (uid : String) (opts : ApplyOptions) :
    List BriefingTask → ApplyResult → ApplySt → ApplyResult × ApplySt
  | [], res, st => (res, st)
  | tu :: tus, res, st =>
    let p := applyBriefingItem env uid opts tu res st
    applyBriefingItems env uid opts tus p.1 p.2

/-- `SuggestionApplicator.applyBriefingSuggestion`. -/
def applyBriefingSuggestion (env : ApplyEnv) (uid : String) (content : BriefingContent)
    (opts : ApplyOptions) (st : ApplySt) : ApplyResult × ApplySt :=
  let res0 : ApplyResult :=
    { success := true, message := "Briefing suggestion applied successfully",
      appliedItems := [], skippedItems := [], errors := [], updatedTasks := 0 }
  if opts.dryRun then
    ({ res0 with
       message := "Dry run: Would update " ++ toString content.todaysTasks.length ++ " tasks" },
     st)
  else
    let p := applyBriefingItems env uid opts content.todaysTasks res0 st
    let res2 :=
      if 0 < p.1.errors.length then
        { p.1 with success := false,
                   message := "Briefing applied with " ++ toString p.1.errors.length ++ " errors" }
      else p.1
    (res2, p.2)

/-- One iteration of the task loop of `applyRescheduleSuggestion`. -/
def applyRescheduleTask (env : ApplyEnv) (opts : ApplyOptions) (tu : RescheduleTask)
    (res : ApplyResult) (st : ApplySt) : ApplyResult × ApplySt :=
  if excludedBySelection opts tu.taskId then
    ({ res with skippedItems := res.skippedItems ++ [tu.taskId] }, st)
  else if tu.taskId ≠ "" then
    let due := if tu.suggestedDueDate ≠ "" then some tu.suggestedDueDate else none
    match storeCall env (.updateTaskDueDate tu.taskId due) st with
    | (some m, st1) =>
      ({ res with errors := res.errors ++ ["Failed to reschedule task: " ++ m],
                  skippedItems := res.skippedItems ++ [jsOr tu.taskId "Unknown task"] }, st1)
    | (none, st1) =>
      ({ res with updatedTasks := res.updatedTasks + 1,
                  appliedItems := res.appliedItems ++ [tu.taskId] }, st1)
  else
    ({ res with skippedItems := res.skippedItems ++ ["Unknown task"] }, st)

/-- The task loop of `applyRescheduleSuggestion`. -/
def applyRescheduleTasks (env : ApplyEnv) (opts : ApplyOptions) :
    List RescheduleTask → ApplyResult → ApplySt → ApplyResult × ApplySt
  | [], res, st => (res, st)
  | tu :: tus, res, st =>
    let p := applyRescheduleTask env opts tu res st
    applyRescheduleTasks env opts tus p.1 p.2

/-- One iteration of the event loop of `applyRescheduleSuggestion`. -/
def applyRescheduleEvent (env : ApplyEnv) (opts : ApplyOptions) (eu : RescheduleEvent)
    (res : ApplyResult) (st : ApplySt) : ApplyResult × ApplySt :=
  if excludedBySelection opts eu.eventId then
    ({ res with skippedItems := res.skippedItems ++ [eu.eventId] }, st)
  else if eu.eventId ≠ "" then
    let newStart := if eu.suggestedStartTime ≠ "" then some eu.suggestedStartTime else none
    let newEnd := if jsTruthy eu.suggestedEndTime then eu.suggestedEndTime else none
    match storeCall env (.updateEventTimes eu.eventId newStart newEnd) st with
    | (some m, st1) =>
      ({ res with errors := res.errors ++ ["Failed to reschedule event: " ++ m],
                  skippedItems := res.skippedItems ++ [jsOr eu.eventId "Unknown event"] }, st1)
    | (none, st1) =>
      ({ res with updatedEvents := res.updatedEvents + 1,
                  appliedItems := res.appliedItems ++ [eu.eventId] }, st1)
  else
    ({ res with skippedItems := res.skippedItems ++ ["Unknown event"] }, st)

/-- The event loop of `applyRescheduleSuggestion`. -/
def applyRescheduleEvents (env : ApplyEnv) (opts : ApplyOptions) :
    List RescheduleEvent → ApplyResult → ApplySt → ApplyResult × ApplySt
  | [], res, st => (res, st)
  | eu :: eus, res, st =>
    let p := applyRescheduleEvent env opts eu res st
    applyRescheduleEvents env opts eus p.1 p.2

/-- `SuggestionApplicator.applyRescheduleSuggestion`. -/
def applyRescheduleSuggestion (env : ApplyEnv) (content : RescheduleContent)
    (opts : ApplyOptions) (st : ApplySt) : ApplyResult × ApplySt :=
  let res0 : ApplyResult :=
    { success := true, message := "Reschedule suggestion applied successfully",
      appliedItems := [], skippedItems := [], errors := [],
      updatedTasks := 0, updatedEvents := 0 }
  if opts.dryRun then
    ({ res0 with
       message := "Dry run: Would update " ++ toString content.affectedTasks.length ++ " tasks" },
     st)
  else
    let p := applyRescheduleTasks env opts content.affectedTasks res0 st
    let q := applyRescheduleEvents env opts content.affectedEvents p.1 p.2
    let res2 :=
      if 0 < q.1.errors.length then
        { q.1 with success := false,
                   message := "Reschedule applied with " ++ toString q.1.errors.length ++ " errors" }
      else q.1
    (res2, q.2)

/-- `SuggestionApplicator.applySuggestion`: the dispatch on `suggestion.type`.
The union is closed, so the `default: throw` branch of the source is
unreachable. -/
def applySuggestion (env : ApplyEnv) (s : Suggestion) (opts : ApplyOptions)
    (st : ApplySt) : ApplyResult × ApplySt :=
  match s.content with
  | .plan c => applyPlanSuggestion env s.userId c opts st
  | .briefing c => applyBriefingSuggestion env s.userId c opts st
  | .reschedule c => applyRescheduleSuggestion env c opts st

end SuggestionApplicator

/-! ## Suggestion Generation Service (`packages/api/src/ai-service.ts`) -/

/-- Mirror of `GeneratePlanInput`. -/
structure GeneratePlanInput where
  userGoals : String
  currentMonth : String
  currentDate : String
  existingCommitments : List String
  workHours : Option String := none
  energyPatterns : Option String := none
  preferredTimes : Option String := none
  deriving DecidableEq, Repr

/-- One entry of the parsed model response's `weekly_breakdown`; `daily_tasks`
is the entry list of the JSON object. -/
structure ParsedWeek where
  week : Option Nat
  focus : Option String
  goals : Option (List String)
  daily_tasks : List (String × List String)
  deriving DecidableEq, Repr

/-- The shape `generatePlan` reads out of the model's JSON response. -/
structure ParsedPlan where
  weekly_breakdown : Option (List ParsedWeek)
  deriving DecidableEq, Repr

/-- Environment of the generation service: the model provider (indexed by the
global invocation count), JSON parsing of the model text, the current day and
ISO date rendering, `JSON.stringify` of the input object (what
`handleAIError` hands to the plan fallback), and `toLocaleTimeString`
rendering of the reset time. All are opaque external primitives. -/
structure GenPlanEnv where
  provider : Nat → Except String String
  parse : String → Except String ParsedPlan
  today : Nat
  isoDate : Nat → String
  stringifyInput : GeneratePlanInput → String
  showTime : ResetTime → String

/-- Mutable state the service touches across one or more `generatePlan`
calls: the process-wide cache and rate limiter plus instrumentation counters
for provider invocations and for the limiter's `checkLimit`/`recordUsage`
call sites. -/
structure GenState where
  cache : SimpleCacheState PlanContent
  limiter : LimiterState
  providerCalls : Nat
  checkCalls : Nat
  recordCalls : Nat

namespace AIService

/-- The rendering of one `${value}` interpolation for an optional string
parameter (`undefined` renders as the string `"undefined"`). -/
def jsShowOptStr : Option String → String
  | none => "undefined"
  | some s => s

/-- The cache key `generatePlan` computes from the normalized parameters
(an array renders as its comma-joined elements). -/
def planCacheKey (input : GeneratePlanInput) : String :=
  SimpleCache.generateKey "plan"
    [("userGoals", input.userGoals),
     ("currentMonth", input.currentMonth),
     ("existingCommitments", String.intercalate "," input.existingCommitments),
     ("workHours", jsShowOptStr input.workHours),
     ("energyPatterns", jsShowOptStr input.energyPatterns),
     ("preferredTimes", jsShowOptStr input.preferredTimes)]

/-- The `dayMap` of `getDueDateForDay`. -/
def dayMap (day : String) : Option Nat :=
  if day = "Monday" then some 1
  else if day = "Tuesday" then some 2
  else if day = "Wednesday" then some 3
  else if day = "Thursday" then some 4
  else if day = "Friday" then some 5
  else if day = "Saturday" then some 6
  else if day = "Sunday" then some 0
  else none

/-- `AIService.getDueDateForDay` (the `dayMap[day] || 1` default also turns
Sunday's `0` into `1`). -/
def getDueDateForDay (env : GenPlanEnv) (day : String) (week : Nat) : String :=
  let dayOffset :=
    (week - 1) * 7 + (match dayMap day with
      | some n => if n = 0 then 1 else n
      | none => 1)
  env.isoDate (env.today + dayOffset)

/-- The transformation of the parsed model response into a
`PlanSuggestionContent` (`parsed.weekly_breakdown?.map(...) || []`). An empty
`focus` string is falsy and falls back to the `Week N Goals` label. -/
def transformPlan (env : GenPlanEnv) (parsed : ParsedPlan) : PlanContent :=
  { goals := (parsed.weekly_breakdown.getD []).map (fun w =>
      { title :=
          jsOr (w.focus.getD "")
            ("Week " ++ (match w.week with
              | some n => toString n
              | none => "undefined") ++ " Goals"),
        description := String.intercalate ", " (w.goals.getD []),
        category := "monthly",
        tasks := w.daily_tasks.flatMap (fun dt =>
          dt.2.map (fun task =>
            { title := task,
              priority := Priority.medium,
              dueDate := some (getDueDateForDay env dt.1 (w.week.getD 1)) })) }) }

/-- The model call closure handed to `SimpleRetry.executeWithStrategy`: each
invocation consumes the next provider response and bumps the invocation
counter. -/
def providerOp (env : GenPlanEnv) : GenState → Except String String × GenState :=
  fun s => (env.provider s.providerCalls, { s with providerCalls := s.providerCalls + 1 })

/-- The `catch` of `generatePlan`: with a user context, delegate to
`FallbackHandler.handleAIError`, which stringifies the (non-string) input and
runs `generatePlanFallback`; return its data when successful, otherwise
rethrow the wrapped error. -/
def planCatch (env : GenPlanEnv) (input : GeneratePlanInput) (userId : Option String)
    (e : String) (st : GenState) : Except String PlanContent × GenState :=
  match userId with
  | some _ =>
    let fb := FallbackHandler.generatePlanFallback (env.stringifyInput input)
      env.today env.isoDate
    match fb.data with
    | some d => if fb.success then (.ok d, st)
                else (.error ("Failed to generate plan: " ++ e), st)
    | none => (.error ("Failed to generate plan: " ++ e), st)
  | none => (.error ("Failed to generate plan: " ++ e), st)

/-- The body of `generatePlan` after the cache miss and the rate-limit gate:
retry the model call with the ai-service strategy, parse, transform, cache,
record usage; any failure goes to the catch. -/
def generatePlanModelPath (env : GenPlanEnv) (input : GeneratePlanInput)
    (userId : Option String) (now : Nat) (key : String) (st : GenState) :
    Except String PlanContent × GenState :=
  let r := SimpleRetry.executeWithStrategy (providerOp env) .aiService {} st
  match r.1.data, r.1.success with
  | some txt, true =>
    match env.parse txt with
    | .error pe => planCatch env input userId pe r.2
    | .ok parsed =>
      let content := transformPlan env parsed
      let st4 := { r.2 with
        cache := SimpleCache.set r.2.cache key content CACHE_TTL_PLAN_GENERATION now }
      let st5 :=
        match userId with
        | some uid =>
          { st4 with limiter := SimpleRateLimiter.recordUsage st4.limiter uid .plan,
                     recordCalls := st4.recordCalls + 1 }
        | none => st4
      (.ok content, st5)
  | _, _ =>
    planCatch env input userId
      (r.1.error.getD "Failed to generate plan after retries") r.2

/-- `AIService.generatePlan`: cache lookup, rate-limit gate (only with a
`userId`; a blocked request throws outside the `try`, so it never reaches the
fallback), then the retried model path. -/
def generatePlan (env : GenPlanEnv) (input : GeneratePlanInput)
    (userId : Option String) (now : Nat) (st : GenState) :
    Except String PlanContent × GenState :=
  let key := planCacheKey input
  let c := SimpleCache.get st.cache now key
  match c.1 with
  | some v => (.ok v, { st with cache := c.2 })
  | none =>
    let st1 := { st with cache := c.2 }
    match userId with
    | some uid =>
      let chk := SimpleRateLimiter.checkLimit st1.limiter uid .plan
      let st2 := { st1 with limiter := chk.2, checkCalls := st1.checkCalls + 1 }
      if chk.1.allowed then
        generatePlanModelPath env input (some uid) now key st2
      else
        (.error ("Rate limit exceeded. Try again after " ++ env.showTime chk.1.resetTime ++
          ". Remaining: " ++ toString chk.1.remaining), st2)
    | none => generatePlanModelPath env input none now key st1

end AIService

/-! ## Generation service: the briefing and reschedule kinds (`ai-service.ts`)

`generateBriefing` and `generateReschedule` are separate copies of the
`generatePlan` pipeline in the source, with their own inputs, cache keys,
parsing shapes, TTLs, rate-limit endpoints and fallbacks; they are embedded
here in the same style. -/

/-- `CACHE_TTL.BRIEFING_GENERATION` of `simple-cache.ts` (30 minutes). -/
def CACHE_TTL_BRIEFING_GENERATION : Nat := 30 * 60 * 1000

/-- `CACHE_TTL.RESCHEDULE_GENERATION` of `simple-cache.ts` (1 hour). -/
def CACHE_TTL_RESCHEDULE_GENERATION : Nat := 60 * 60 * 1000

/-- One of today's tasks as supplied to `generateBriefing`
(`GenerateBriefingInput.todaysTasks`). -/
structure BriefingInputTask where
  title : String
  priority : Priority
  deriving DecidableEq, Repr

/-- One near deadline of `GenerateBriefingInput.nearDeadlines`. -/
structure NearDeadline where
  title : String
  dueDate : String
  deriving DecidableEq, Repr

/-- Mirror of `GenerateBriefingInput`; `habitStreaks` is the entry list of
the `Record<string, number>`. -/
structure GenerateBriefingInput where
  currentDate : String
  todaysTasks : List BriefingInputTask
  yesterdayProgress : Option String := none
  habitStreaks : Option (List (String × Nat)) := none
  nearDeadlines : Option (List NearDeadline) := none
  energyLevels : Option String := none
  deriving DecidableEq, Repr

/-- One backlog task of `GenerateRescheduleInput.backlogTasks`. -/
structure BacklogTask where
  title : String
  priority : Priority
  dueDate : String
  deriving DecidableEq, Repr

/-- One day of `GenerateRescheduleInput.completionHistory`. -/
structure CompletionDay where
  date : String
  completed : Nat
  total : Nat
  deriving DecidableEq, Repr

/-- One entry of `GenerateRescheduleInput.deadlinePressure`. -/
structure DeadlineItem where
  title : String
  daysUntil : Int
  deriving DecidableEq, Repr

/-- Mirror of `GenerateRescheduleInput` (`stressLevel` ranges over the same
low/medium/high union as priorities). -/
structure GenerateRescheduleInput where
  currentWeek : String
  backlogTasks : List BacklogTask
  completionHistory : Option (List CompletionDay) := none
  deadlinePressure : Option (List DeadlineItem) := none
  stressLevel : Option Priority := none
  energyTrends : Option String := none
  fixedCommitments : Option (List String) := none
  deriving DecidableEq, Repr

/-- One entry of the parsed briefing response's `task_priorities`. The
`priority` field is read as one of the three declared values when present;
`task.priority || "medium"` supplies the default otherwise. -/
structure ParsedTaskPriority where
  task : String
  priority : Option Priority
  deriving DecidableEq, Repr

/-- The shape `generateBriefing` reads out of the model's JSON response. -/
structure ParsedBriefing where
  greeting : Option String
  task_priorities : Option (List ParsedTaskPriority)
  deriving DecidableEq, Repr

/-- One entry of the parsed reschedule response's `task_movements`. -/
structure ParsedMovement where
  original_date : Option String
  new_date : Option String
  deriving DecidableEq, Repr

/-- The shape `generateReschedule` reads out of the model's JSON response. -/
structure ParsedReschedule where
  rescheduling_strategy : Option String
  task_movements : Option (List ParsedMovement)
  deriving DecidableEq, Repr

/-- Environment of `generateBriefing`: the model provider (indexed by the
global invocation count), JSON parsing of the model text, and
`toLocaleTimeString` rendering of the reset time. -/
structure GenBriefingEnv where
  provider : Nat → Except String String
  parse : String → Except String ParsedBriefing
  showTime : ResetTime → String

/-- Environment of `generateReschedule`; additionally the current day, ISO
date rendering and `new Date(string).getTime()` parsing, which the reschedule
fallback's sort and date spread need. -/
structure GenRescheduleEnv where
  provider : Nat → Except String String
  parse : String → Except String ParsedReschedule
  showTime : ResetTime → String
  today : Nat
  isoDate : Nat → String
  parseDate : String → Int

/-- The slice of the process state one generation kind touches: its kind's
cache entries (the shared cache map, restricted to this kind's key prefix)
plus the shared rate limiter and the instrumentation counters. -/
structure GenKindState (γ : Type) where
  cache : SimpleCacheState γ
  limiter : LimiterState
  providerCalls : Nat
  checkCalls : Nat
  recordCalls : Nat

namespace FallbackHandler

/-- `FallbackHandler.generateBriefingFallback`: classifies the supplied tasks
by priority and emits the summary plus the priority emphasis, with empty
deadline and habit sections. Pure, so always a success. -/
def generateBriefingFallback (currentDate : String)
    (todaysTasks : List BriefingInputTask) : FallbackResult BriefingContent :=
  let highPriorityTasks := todaysTasks.filter (fun t => decide (t.priority = Priority.high))
  let mediumPriorityTasks :=
    todaysTasks.filter (fun t => decide (t.priority = Priority.medium))
  let fallbackBriefing : BriefingContent :=
    { summary := "Daily briefing for " ++ currentDate ++ " - " ++
        toString todaysTasks.length ++ " tasks scheduled",
      todaysTasks := todaysTasks.map (fun t =>
        { taskId := "", title := t.title, priority := t.priority }),
      upcomingDeadlines := [],
      habitReminders := [] }
  let priorityMessage :=
    if 0 < highPriorityTasks.length then
      "Focus on " ++ toString highPriorityTasks.length ++ " high-priority task(s)"
    else if 0 < mediumPriorityTasks.length then
      "You have " ++ toString mediumPriorityTasks.length ++
        " medium-priority task(s) to work on"
    else "No high-priority tasks - great job staying ahead!"
  { success := true, data := some fallbackBriefing, fallbackUsed := true,
    message := "AI service unavailable - " ++ priorityMessage }

/-- `FallbackHandler.getPriorityValue`. -/
def getPriorityValue : Priority → Nat
  | .high => 3
  | .medium => 2
  | .low => 1

/-- `FallbackHandler.generateRescheduleFallback`: sorts the backlog by
priority (high first) then parsed due date (earliest first) with a stable
sort, and spreads the tasks one per day starting tomorrow. `parseDate` models
`new Date(string).getTime()`; the task's original due-date string stands in
for the `Date` object the source keeps in `currentDueDate`. Pure, so always
a success. -/
def generateRescheduleFallback (backlogTasks : List BacklogTask) (today : Nat)
    (isoDate : Nat → String) (parseDate : String → Int) :
    FallbackResult RescheduleContent :=
  let sortedTasks := backlogTasks.mergeSort (fun a b =>
    if getPriorityValue a.priority = getPriorityValue b.priority then
      decide (parseDate a.dueDate ≤ parseDate b.dueDate)
    else decide (getPriorityValue b.priority ≤ getPriorityValue a.priority))
  let rescheduledTasks := sortedTasks.enum.map (fun p =>
    { taskId := "", currentDueDate := p.2.dueDate,
      suggestedDueDate := isoDate (today + p.1 + 1) })
  { success := true,
    data := some
      { reason := "Rescheduling " ++ toString backlogTasks.length ++
          " overdue tasks using priority-based scheduling",
        affectedTasks := rescheduledTasks,
        affectedEvents := [] },
    fallbackUsed := true,
    message := "AI service unavailable - Rescheduled " ++
      toString backlogTasks.length ++ " tasks based on priority" }

end FallbackHandler

namespace AIService

/-- The `${value}` rendering of an array of `n` plain objects inside
`generateKey`'s template literal: `[object Object],...`. -/
def jsShowObjArray (n : Nat) : String :=
  String.intercalate "," (List.replicate n "[object Object]")

/-- The `${value}` rendering of an optional plain object. -/
def jsShowOptObj {α : Type} : Option α → String
  | none => "undefined"
  | some _ => "[object Object]"

/-- The `${value}` rendering of an optional array of plain objects. -/
def jsShowOptObjArray {α : Type} : Option (List α) → String
  | none => "undefined"
  | some l => jsShowObjArray l.length

/-- The string of one low/medium/high value. -/
def priorityStr : Priority → String
  | .low => "low"
  | .medium => "medium"
  | .high => "high"

/-- The cache key `generateBriefing` computes from its normalized parameters;
object-valued parameters render as `[object Object]` the way the template
literal in `generateKey` prints them. -/
def briefingCacheKey (input : GenerateBriefingInput) : String :=
  SimpleCache.generateKey "briefing"
    [("currentDate", input.currentDate),
     ("todaysTasks", jsShowObjArray input.todaysTasks.length),
     ("yesterdayProgress", jsShowOptStr input.yesterdayProgress),
     ("habitStreaks", jsShowOptObj input.habitStreaks),
     ("nearDeadlines", jsShowOptObjArray input.nearDeadlines),
     ("energyLevels", jsShowOptStr input.energyLevels)]

/-- The cache key `generateReschedule` computes from its normalized
parameters. -/
def rescheduleCacheKey (input : GenerateRescheduleInput) : String :=
  SimpleCache.generateKey "reschedule"
    [("currentWeek", input.currentWeek),
     ("backlogTasks", jsShowObjArray input.backlogTasks.length),
     ("completionHistory", jsShowOptObjArray input.completionHistory),
     ("deadlinePressure", jsShowOptObjArray input.deadlinePressure),
     ("stressLevel", match input.stressLevel with
       | none => "undefined"
       | some p => priorityStr p),
     ("energyTrends", jsShowOptStr input.energyTrends),
     ("fixedCommitments", match input.fixedCommitments with
       | none => "undefined"
       | some l => String.intercalate "," l)]

/-- The transformation of the parsed briefing response into a
`BriefingSuggestionContent`: `parsed.task_priorities?.map(...)` falls back to
the input's task list only when `task_priorities` is absent (a present empty
array is truthy); deadlines and habit reminders come from the input. -/
def transformBriefing (input : GenerateBriefingInput) (parsed : ParsedBriefing) :
    BriefingContent :=
  { summary := jsOr (parsed.greeting.getD "") "Daily briefing ready",
    todaysTasks :=
      match parsed.task_priorities with
      | some l => l.map (fun tp =>
          { taskId := "", title := tp.task,
            priority := tp.priority.getD Priority.medium })
      | none => input.todaysTasks.map (fun t =>
          { taskId := "", title := t.title, priority := t.priority }),
    upcomingDeadlines := (input.nearDeadlines.getD []).map (fun d =>
      (d.title, d.dueDate)),
    habitReminders := (input.habitStreaks.getD []).map (fun p =>
      (p.1, "Habit " ++ p.1, 1, p.2)) }

/-- The transformation of the parsed reschedule response into a
`RescheduleSuggestionContent`; an absent movement date is represented by the
empty string, which is equally falsy for every later truthiness test. -/
def transformReschedule (parsed : ParsedReschedule) : RescheduleContent :=
  { reason := jsOr (parsed.rescheduling_strategy.getD "")
      "Optimizing schedule based on progress",
    affectedTasks := (parsed.task_movements.getD []).map (fun m =>
      { taskId := "", currentDueDate := m.original_date.getD "",
        suggestedDueDate := m.new_date.getD "" }),
    affectedEvents := [] }

/-- The model call closure of `generateBriefing`. -/
def providerOpBriefing (env : GenBriefingEnv) :
    GenKindState BriefingContent →
      Except String String × GenKindState BriefingContent :=
  fun s => (env.provider s.providerCalls,
    { s with providerCalls := s.providerCalls + 1 })

/-- The model call closure of `generateReschedule`. -/
def providerOpReschedule (env : GenRescheduleEnv) :
    GenKindState RescheduleContent →
      Except String String × GenKindState RescheduleContent :=
  fun s => (env.provider s.providerCalls,
    { s with providerCalls := s.providerCalls + 1 })

/-- The `catch` of `generateBriefing`: with a user context, delegate to
`FallbackHandler.handleAIError`, which runs `generateBriefingFallback` on the
input's date and tasks; return its data when successful, otherwise rethrow
the wrapped error. -/
def briefingCatch (input : GenerateBriefingInput) (userId : Option String)
    (e : String) (st : GenKindState BriefingContent) :
    Except String BriefingContent × GenKindState BriefingContent :=
  match userId with
  | some _ =>
    let fb := FallbackHandler.generateBriefingFallback input.currentDate
      input.todaysTasks
    match fb.data with
    | some d => if fb.success then (.ok d, st)
                else (.error ("Failed to generate briefing: " ++ e), st)
    | none => (.error ("Failed to generate briefing: " ++ e), st)
  | none => (.error ("Failed to generate briefing: " ++ e), st)

/-- The `catch` of `generateReschedule`, delegating to
`generateRescheduleFallback` on the input's backlog. -/
def rescheduleCatch (env : GenRescheduleEnv) (input : GenerateRescheduleInput)
    (userId : Option String) (e : String) (st : GenKindState RescheduleContent) :
    Except String RescheduleContent × GenKindState RescheduleContent :=
  match userId with
  | some _ =>
    let fb := FallbackHandler.generateRescheduleFallback input.backlogTasks
      env.today env.isoDate env.parseDate
    match fb.data with
    | some d => if fb.success then (.ok d, st)
                else (.error ("Failed to generate reschedule: " ++ e), st)
    | none => (.error ("Failed to generate reschedule: " ++ e), st)
  | none => (.error ("Failed to generate reschedule: " ++ e), st)

/-- The body of `generateBriefing` after the cache miss and the rate-limit
gate: retry the model call with the ai-service strategy, parse, transform,
cache with the briefing TTL, record usage; any failure goes to the catch. -/
def generateBriefingModelPath (env : GenBriefingEnv) (input : GenerateBriefingInput)
    (userId : Option String) (now : Nat) (key : String)
    (st : GenKindState BriefingContent) :
    Except String BriefingContent × GenKindState BriefingContent :=
  let r := SimpleRetry.executeWithStrategy (providerOpBriefing env) .aiService {} st
  match r.1.data, r.1.success with
  | some txt, true =>
    match env.parse txt with
    | .error pe => briefingCatch input userId pe r.2
    | .ok parsed =>
      let content := transformBriefing input parsed
      let st4 := { r.2 with
        cache := SimpleCache.set r.2.cache key content CACHE_TTL_BRIEFING_GENERATION now }
      let st5 :=
        match userId with
        | some uid =>
          { st4 with limiter := SimpleRateLimiter.recordUsage st4.limiter uid .briefing,
                     recordCalls := st4.recordCalls + 1 }
        | none => st4
      (.ok content, st5)
  | _, _ =>
    briefingCatch input userId
      (r.1.error.getD "Failed to generate briefing after retries") r.2

/-- `AIService.generateBriefing`: the same cache / rate-limit / retried model
call pipeline as `generatePlan`, for the briefing kind. -/
def generateBriefing (env : GenBriefingEnv) (input : GenerateBriefingInput)
    (userId : Option String) (now : Nat) (st : GenKindState BriefingContent) :
    Except String BriefingContent × GenKindState BriefingContent :=
  let key := briefingCacheKey input
  let c := SimpleCache.get st.cache now key
  match c.1 with
  | some v => (.ok v, { st with cache := c.2 })
  | none =>
    let st1 := { st with cache := c.2 }
    match userId with
    | some uid =>
      let chk := SimpleRateLimiter.checkLimit st1.limiter uid .briefing
      let st2 := { st1 with limiter := chk.2, checkCalls := st1.checkCalls + 1 }
      if chk.1.allowed then
        generateBriefingModelPath env input (some uid) now key st2
      else
        (.error ("Rate limit exceeded. Try again after " ++ env.showTime chk.1.resetTime ++
          ". Remaining: " ++ toString chk.1.remaining), st2)
    | none => generateBriefingModelPath env input none now key st1

/-- The body of `generateReschedule` after the cache miss and the rate-limit
gate. -/
def generateRescheduleModelPath (env : GenRescheduleEnv)
    (input : GenerateRescheduleInput) (userId : Option String) (now : Nat)
    (key : String) (st : GenKindState RescheduleContent) :
    Except String RescheduleContent × GenKindState RescheduleContent :=
  let r := SimpleRetry.executeWithStrategy (providerOpReschedule env) .aiService {} st
  match r.1.data, r.1.success with
  | some txt, true =>
    match env.parse txt with
    | .error pe => rescheduleCatch env input userId pe r.2
    | .ok parsed =>
      let content := transformReschedule parsed
      let st4 := { r.2 with
        cache := SimpleCache.set r.2.cache key content
          CACHE_TTL_RESCHEDULE_GENERATION now }
      let st5 :=
        match userId with
        | some uid =>
          { st4 with
            limiter := SimpleRateLimiter.recordUsage st4.limiter uid .reschedule,
            recordCalls := st4.recordCalls + 1 }
        | none => st4
      (.ok content, st5)
  | _, _ =>
    rescheduleCatch env input userId
      (r.1.error.getD "Failed to generate reschedule after retries") r.2

/-- `AIService.generateReschedule`: the same pipeline for the reschedule
kind. -/
def generateReschedule (env : GenRescheduleEnv) (input : GenerateRescheduleInput)
    (userId : Option String) (now : Nat) (st : GenKindState RescheduleContent) :
    Except String RescheduleContent × GenKindState RescheduleContent :=
  let key := rescheduleCacheKey input
  let c := SimpleCache.get st.cache now key
  match c.1 with
  | some v => (.ok v, { st with cache := c.2 })
  | none =>
    let st1 := { st with cache := c.2 }
    match userId with
    | some uid =>
      let chk := SimpleRateLimiter.checkLimit st1.limiter uid .reschedule
      let st2 := { st1 with limiter := chk.2, checkCalls := st1.checkCalls + 1 }
      if chk.1.allowed then
        generateRescheduleModelPath env input (some uid) now key st2
      else
        (.error ("Rate limit exceeded. Try again after " ++ env.showTime chk.1.resetTime ++
          ". Remaining: " ++ toString chk.1.remaining), st2)
    | none => generateRescheduleModelPath env input none now key st1

end AIService

/-! ## Supporting lemmas: the cache map -/

namespace SimpleCache

theorem find_eraseKey_append {α : Type} (es : List (String × CacheEntry α)) (k : String)
    (e : CacheEntry α) :
    (eraseKey es k ++ [(k, e)]).find? (fun p => p.1 == k) = some (k, e) := by
  induction es with
  | nil => simp [eraseKey]
  | cons hd tl ih =>
    by_cases h : hd.1 = k
    · simp [eraseKey, List.filter_cons, h]
    · simp [eraseKey, List.filter_cons, h, List.find?]

theorem lookup_set {α : Type} (c : SimpleCacheState α) (k : String) (v : α)
    (ttlMs now : Nat) :
    lookupEntry (set c k v ttlMs now).entries k = some ⟨v, now, ttlMs⟩ := by
  have h := find_eraseKey_append c.entries k (⟨v, now, ttlMs⟩ : CacheEntry α)
  simp only [set, lookupEntry]
  rw [h]
  rfl

theorem lookup_eraseKey {α : Type} (es : List (String × CacheEntry α)) (k : String) :
    lookupEntry (eraseKey es k) k = none := by
  induction es with
  | nil => simp [eraseKey, lookupEntry]
  | cons hd tl ih =>
    by_cases h : hd.1 = k
    · simp [eraseKey, List.filter_cons, h, lookupEntry]
    · simp [eraseKey, List.filter_cons, h, lookupEntry, List.find?]

theorem get_miss {α : Type} (c : SimpleCacheState α) (now : Nat) (k : String)
    (h : lookupEntry c.entries k = none) :
    get c now k = (none, { c with stats := { c.stats with misses := c.stats.misses + 1 } }) := by
  simp [get, h]

theorem get_hit_after_set {α : Type} (c : SimpleCacheState α) (k : String) (v : α)
    (ttlMs t0 t : Nat) (h : t - t0 ≤ ttlMs) :
    get (set c k v ttlMs t0) t k =
      (some v,
       { set c k v ttlMs t0 with
         stats := { (set c k v ttlMs t0).stats with
                    hits := (set c k v ttlMs t0).stats.hits + 1 } }) := by
  have hlt : ¬ ttlMs < t - t0 := not_lt.mpr h
  simp [get, lookup_set, hlt]

end SimpleCache

/-! ## Claim C6 — cache TTL behavior -/

/-- C6 (corrected boundary): for a key set with ttl `T` at time `t0`, a read at
time `t` returns the stored value whenever `t - t0 ≤ T` (so also at the instant
exactly `T` after the store, since the expiry test of `simple-cache.ts` is the
strict `now - timestamp > ttl`); a read strictly after `T` has elapsed returns
absent, evicts the entry and counts a miss; and a second `set` on the same key
restarts the clock at the new store time. -/
theorem cache_ttl_behavior {α : Type} (c : SimpleCacheState α) (k : String) (v v1 : α)
    (T t0 t t1 : Nat) :
    (t - t0 ≤ T → (SimpleCache.get (SimpleCache.set c k v T t0) t k).1 = some v) ∧
    (T < t - t0 →
      (SimpleCache.get (SimpleCache.set c k v T t0) t k).1 = none ∧
      SimpleCache.lookupEntry
        (SimpleCache.get (SimpleCache.set c k v T t0) t k).2.entries k = none ∧
      (SimpleCache.get (SimpleCache.set c k v T t0) t k).2.stats.misses =
        (SimpleCache.set c k v T t0).stats.misses + 1) ∧
    (t - t1 ≤ T →
      (SimpleCache.get (SimpleCache.set (SimpleCache.set c k v T t0) k v1 T t1) t k).1 =
        some v1) := by
  refine ⟨fun h => ?_, fun h => ?_, fun h => ?_⟩
  · rw [SimpleCache.get_hit_after_set c k v T t0 t h]
  · have hcond : T < t - t0 := h
    refine ⟨?_, ?_, ?_⟩ <;>
      simp [SimpleCache.get, SimpleCache.lookup_set, hcond, SimpleCache.lookup_eraseKey]
  · rw [SimpleCache.get_hit_after_set (SimpleCache.set c k v T t0) k v1 T t1 t h]

/-- C6 counterexample to the claim as stated: with `T = 10`, a read exactly
`T` after the store (`now - storedAt = T`) still returns the stored value,
where the claim requires absence for every read at or after `T` has elapsed. -/
theorem cache_ttl_boundary_counterexample :
    (SimpleCache.get (SimpleCache.set (SimpleCache.init Nat) "k" 42 10 0) 10 "k").1 =
      some 42 := by
  decide

/-- C6 witness: instance of `cache_ttl_behavior` at `T = 10`, `t0 = 0`,
reads at `t = 9` (hit), `t = 11` (expired: absent, evicted, miss counted) and
a re-set at `t1 = 11` read at `t = 21` (hit on the new clock). -/
theorem cache_ttl_behavior_witness :
    (SimpleCache.get (SimpleCache.set (SimpleCache.init Nat) "k" 42 10 0) 9 "k").1 =
      some 42 ∧
    (SimpleCache.get (SimpleCache.set (SimpleCache.init Nat) "k" 42 10 0) 11 "k").1 =
      none ∧
    SimpleCache.lookupEntry
      (SimpleCache.get (SimpleCache.set (SimpleCache.init Nat) "k" 42 10 0) 11 "k").2.entries
      "k" = none ∧
    (SimpleCache.get
      (SimpleCache.set (SimpleCache.set (SimpleCache.init Nat) "k" 42 10 0) "k" 7 10 11)
      21 "k").1 = some 7 := by
  refine ⟨(cache_ttl_behavior (SimpleCache.init Nat) "k" 42 7 10 0 9 11).1 (by decide),
    ((cache_ttl_behavior (SimpleCache.init Nat) "k" 42 7 10 0 11 11).2.1 (by decide)).1,
    ((cache_ttl_behavior (SimpleCache.init Nat) "k" 42 7 10 0 11 11).2.1 (by decide)).2.1,
    (cache_ttl_behavior (SimpleCache.init Nat) "k" 42 7 10 0 21 11).2.2 (by decide)⟩

/-! ## Claim C4 — conjunctive rate-limit ceilings -/

/-- The limiter state after five recorded `plan` usages by user `"u"` on the
default limits, within a single day and month (no reset in between). -/
def limiterAfterFivePlans : LimiterState :=
  SimpleRateLimiter.recordUsage
    (SimpleRateLimiter.recordUsage
      (SimpleRateLimiter.recordUsage
        (SimpleRateLimiter.recordUsage
          (SimpleRateLimiter.recordUsage
            (SimpleRateLimiter.init DEFAULT_RATE_LIMITS) "u" .plan)
          "u" .plan)
        "u" .plan)
      "u" .plan)
    "u" .plan

/-- C4: a request is allowed iff all three ceilings (global daily, global
monthly, per-kind daily) are strictly below their limits; in particular with
the default limits (daily 20, plan 5), after five recorded plan usages the
next plan request is blocked although the daily total 5 is far below 20. -/
theorem checkLimit_conjunctive_ceilings :
    (∀ (st : LimiterState) (u : String) (ep : Endpoint),
      ((SimpleRateLimiter.checkLimit st u ep).1.allowed = true ↔
        (SimpleRateLimiter.totalDailyUsage st u <
            ((st.userLimits u).getD st.defaultLimits).daily ∧
         st.monthlyUsage u < ((st.userLimits u).getD st.defaultLimits).monthly ∧
         st.dailyUsage u ep < endpointLimit ((st.userLimits u).getD st.defaultLimits) ep))) ∧
    ((SimpleRateLimiter.checkLimit limiterAfterFivePlans "u" .plan).1.allowed = false ∧
     SimpleRateLimiter.totalDailyUsage limiterAfterFivePlans "u" = 5 ∧
     SimpleRateLimiter.totalDailyUsage limiterAfterFivePlans "u" < 20) := by
  constructor
  · intro st u ep
    simp [SimpleRateLimiter.checkLimit, not_le, and_assoc]
  · exact ⟨by decide, by decide, by decide⟩

/-! ## Claim C7 — which ceiling selects the reset time -/

/-- C7 counterexample: after five plan usages the per-kind daily cap (5) is
the ceiling that blocks the request while the global daily total (5) is under
its limit (20), yet `resetTime` is the first of next month, not the next
midnight the claim requires for a daily-capped block. -/
theorem resetTime_perKind_counterexample :
    (SimpleRateLimiter.checkLimit limiterAfterFivePlans "u" .plan).1.allowed = false ∧
    SimpleRateLimiter.totalDailyUsage limiterAfterFivePlans "u" <
      ((limiterAfterFivePlans.userLimits "u").getD
        limiterAfterFivePlans.defaultLimits).daily ∧
    ((limiterAfterFivePlans.userLimits "u").getD
        limiterAfterFivePlans.defaultLimits).plan ≤
      limiterAfterFivePlans.dailyUsage "u" .plan ∧
    (SimpleRateLimiter.checkLimit limiterAfterFivePlans "u" .plan).1.resetTime ≠
      ResetTime.nextMidnight := by
  refine ⟨by decide, by decide, by decide, by decide⟩

/-- C7 (corrected): `resetTime` is the next midnight iff the *global* daily
total is at/over its limit — regardless of whether the per-kind cap or the
monthly ceiling is what actually blocks the request — and the first of next
month otherwise. -/
theorem resetTime_follows_global_daily (st : LimiterState) (u : String) (ep : Endpoint) :
    (SimpleRateLimiter.checkLimit st u ep).1.resetTime =
      (if ((st.userLimits u).getD st.defaultLimits).daily ≤
          SimpleRateLimiter.totalDailyUsage st u
       then ResetTime.nextMidnight else ResetTime.firstOfNextMonth) := by
  by_cases h : ((st.userLimits u).getD st.defaultLimits).daily ≤
      SimpleRateLimiter.totalDailyUsage st u <;>
    simp [SimpleRateLimiter.checkLimit, h]

/-! ## Claim C9 — fallback plan determinism -/

/-- C9: on the input `"Run 5k\nRead books"`, `generatePlanFallback` returns a
success with exactly two goals titled `"Run 5k"` and `"Read books"`, each
carrying exactly three synthesized tasks with priorities high, medium, low in
that order — for every invocation, i.e. for every current day and every ISO
renderer (which only influence the due-date strings). -/
theorem generatePlanFallback_deterministic (today : Nat) (isoDate : Nat → String) :
    (FallbackHandler.generatePlanFallback "Run 5k\nRead books" today isoDate).success =
      true ∧
    ((FallbackHandler.generatePlanFallback "Run 5k\nRead books" today isoDate).data.getD
        ⟨[]⟩).goals.map PlanGoal.title = ["Run 5k", "Read books"] ∧
    ((FallbackHandler.generatePlanFallback "Run 5k\nRead books" today isoDate).data.getD
        ⟨[]⟩).goals.map (fun g => g.tasks.length) = [3, 3] ∧
    ((FallbackHandler.generatePlanFallback "Run 5k\nRead books" today isoDate).data.getD
        ⟨[]⟩).goals.map (fun g => g.tasks.map PlanTask.priority) =
      [[.high, .medium, .low], [.high, .medium, .low]] := by
  have hex : FallbackHandler.extractGoals "Run 5k\nRead books" =
      ["Run 5k", "Read books"] := by decide
  refine ⟨rfl, ?_, ?_, ?_⟩ <;>
    · simp [FallbackHandler.generatePlanFallback, hex,
        FallbackHandler.generateTasksForGoal, List.enum, List.enumFrom]
      all_goals decide

/-! ## Claim C8 — non-empty goal lists -/

theorem take_five_ne_nil {α : Type} (l : List α) (h : l ≠ []) : l.take 5 ≠ [] := by
  cases l with
  | nil => exact absurd rfl h
  | cons a t => simp

/-- The final backstop-and-cap of `extractGoals`: whatever the candidate list
is, substituting the generic goal when it is empty and then taking five
elements yields a non-empty list. -/
theorem ite_backstop_take_ne (l : List String) (gen : String) :
    (if l.length = 0 then [gen] else l).take 5 ≠ [] := by
  by_cases h : l.length = 0
  · simp [h]
  · rw [if_neg h]
    exact take_five_ne_nil l (fun hl => h (by simp [hl]))

/-- `extractGoals` never returns an empty list: the generic goal backstop
guarantees at least one candidate, and the final `slice(0, 5)` keeps it. -/
theorem extractGoals_ne_nil (s : String) : FallbackHandler.extractGoals s ≠ [] := by
  unfold FallbackHandler.extractGoals
  exact ite_backstop_take_ne _ _

/-- C8 (amended): every successful plan generation produced by the Fallback
Generator has a non-empty goal list. (The model path does not guarantee this;
see the counterexample.) -/
theorem fallback_plan_goals_nonempty (userGoals : String) (today : Nat)
    (isoDate : Nat → String) :
    (FallbackHandler.generatePlanFallback userGoals today isoDate).success = true ∧
    ∀ d, (FallbackHandler.generatePlanFallback userGoals today isoDate).data = some d →
      d.goals ≠ [] := by
  refine ⟨rfl, fun d hd => ?_⟩
  have hx : d.goals =
      (FallbackHandler.extractGoals userGoals).enum.map (fun p =>
        { title := p.2,
          description := "Goal based on your input: " ++ p.2,
          category := "personal",
          tasks := FallbackHandler.generateTasksForGoal p.2 (p.1 + 1) today isoDate }) := by
    have := hd.symm
    simp only [FallbackHandler.generatePlanFallback, Option.some.injEq] at this ⊢
    rw [this]
  rw [hx]
  intro hnil
  have : (FallbackHandler.extractGoals userGoals).enum = [] := List.map_eq_nil_iff.mp hnil
  have h2 : FallbackHandler.extractGoals userGoals = [] := by
    cases hgl : FallbackHandler.extractGoals userGoals with
    | nil => rfl
    | cons a t => rw [hgl] at this; simp [List.enum] at this
  exact extractGoals_ne_nil userGoals h2

/-- Environment for the C8 counterexample: the model immediately answers with
a JSON object that parses fine but has no `weekly_breakdown` field. -/
def emptyPlanEnv : GenPlanEnv :=
  { provider := fun _ => .ok "{}",
    parse := fun _ => .ok { weekly_breakdown := none },
    today := 0,
    isoDate := fun n => toString n,
    stringifyInput := fun _ => "{}",
    showTime := fun _ => "00:00:00" }

/-- A concrete generation request. -/
def planInput0 : GeneratePlanInput :=
  { userGoals := "Run 5k every week",
    currentMonth := "May 2026",
    currentDate := "2026-05-01",
    existingCommitments := [] }

/-- A fresh service state: empty cache, default rate limits, no usage. -/
def genState0 : GenState :=
  { cache := SimpleCache.init PlanContent,
    limiter := SimpleRateLimiter.init DEFAULT_RATE_LIMITS,
    providerCalls := 0,
    checkCalls := 0,
    recordCalls := 0 }

/-- C8 counterexample: a successful model-path generation (the provider
answers, the JSON parses, the result is returned, cached and charged against
the quota) whose goal list is empty, because the parsed response has no
`weekly_breakdown` entries and `parsed.weekly_breakdown?.map(...) || []`
collapses to `[]`. -/
theorem generatePlan_success_empty_goals :
    (AIService.generatePlan emptyPlanEnv planInput0 (some "u") 0 genState0).1 =
      Except.ok { goals := [] } := rfl

/-- C8 witness: the amended invariant applied to a concrete fallback result. -/
theorem fallback_plan_goals_nonempty_witness :
    ((FallbackHandler.generatePlanFallback "Run 5k" 0 (fun _ => "d")).data.getD
      ⟨[]⟩).goals ≠ [] :=
  (fallback_plan_goals_nonempty "Run 5k" 0 (fun _ => "d")).2
    ((FallbackHandler.generatePlanFallback "Run 5k" 0 (fun _ => "d")).data.getD ⟨[]⟩)
    (by decide)

/-! ## Claim C5 — non-retryable errors abort the retry loop -/

namespace SimpleRetry

/-- The retry loop on a failing operation: if the operation's next `k`
invocations starting at state `n` all raise, the first `k - 1` of them
retryably and the k-th with a non-retryable message, then the loop performs
exactly those `k` invocations, sleeps only before each of the `k - 1` retried
attempts, and returns the failure record (whose `attempts` field carries
`opts.maxAttempts`, as the source writes it). -/
theorem executeAux_nonretryable {α : Type} (f : Nat → Except String α)
    (e : Nat → String) (opts : RetryOptions) :
    ∀ (k fuel attempt n : Nat) (le : Option String) (td : ℚ),
      1 ≤ k → k ≤ fuel →
      (∀ i, i < k → f (n + i) = .error (e (n + i))) →
      (∀ i, i + 1 < k → shouldNotRetry (e (n + i)) = false) →
      shouldNotRetry (e (n + (k - 1))) = true →
      executeAux (fun m => (f m, m + 1)) opts fuel attempt le td n =
        ({ success := false, data := none, error := some (e (n + (k - 1))),
           attempts := opts.maxAttempts,
           totalDelay := td + delaysFrom opts attempt (k - 1) }, n + k) := by
  intro k
  induction k with
  | zero => intro fuel attempt n le td h1; exact absurd h1 (by omega)
  | succ k ih =>
    intro fuel attempt n le td _ hfuel herr hretry hstop
    obtain ⟨fl, rfl⟩ : ∃ fl, fuel = fl + 1 := ⟨fuel - 1, by omega⟩
    have hfn : f n = .error (e n) := by simpa using herr 0 (by omega)
    rcases Nat.eq_zero_or_pos k with hk0 | hkpos
    · subst hk0
      have hstop0 : shouldNotRetry (e n) = true := by simpa using hstop
      simp only [executeAux, hfn, hstop0]
      simp [delaysFrom]
    · have hstop1 : shouldNotRetry (e n) = false := by
        simpa using hretry 0 (by omega)
      have hflpos : 1 ≤ fl := by omega
      have hrec := ih fl (attempt + 1) (n + 1) (some (e n))
        (td + attemptDelay opts attempt) hkpos (by omega)
        (fun i hi => by
          have := herr (i + 1) (by omega)
          simpa [Nat.add_assoc, Nat.add_comm 1 i] using this)
        (fun i hi => by
          have := hretry (i + 1) (by omega)
          simpa [Nat.add_assoc, Nat.add_comm 1 i] using this)
        (by
          have h1 : n + 1 + (k - 1) = n + (k + 1 - 1) := by omega
          rw [h1]; exact hstop)
      simp only [executeAux, hfn, hstop1]
      have hflne : ¬ fl = 0 := by omega
      simp only [Bool.false_eq_true, if_false, hflne, if_neg]
      rw [show (min (opts.baseDelay * opts.backoffFactor ^ (attempt - 1)) opts.maxDelay) =
        attemptDelay opts attempt from rfl]
      rw [hrec]
      have hd : delaysFrom opts attempt (k + 1 - 1) =
          attemptDelay opts attempt + delaysFrom opts (attempt + 1) (k - 1) := by
        obtain ⟨c, rfl⟩ : ∃ c, k = c + 1 := ⟨k - 1, by omega⟩
        simp [delaysFrom]
      have hn : n + 1 + (k - 1) = n + (k + 1 - 1) := by omega
      have hn2 : n + 1 + k = n + (k + 1) := by omega
      rw [hd, hn, hn2, add_assoc]

end SimpleRetry

/-- C5 (amended): an operation raising a non-retryable error at its k-th
invocation (after k-1 retryable failures) makes `execute` stop right there —
exactly `k` invocations, no delay slept for the aborting attempt — and report
a failure carrying that error; the `attempts` field of the outcome, however,
reports `options.maxAttempts` rather than the number of attempts actually
performed. The operation threads the invocation count in its state. -/
theorem execute_nonretryable_aborts {α : Type} (f : Nat → Except String α)
    (e : Nat → String) (k : Nat) (options : RetryOptionsPartial)
    (h1 : 1 ≤ k)
    (hmax : k ≤ (mergeOptions SimpleRetry.DEFAULT_OPTIONS options).maxAttempts)
    (herr : ∀ i, i < k → f i = .error (e i))
    (hretry : ∀ i, i + 1 < k → SimpleRetry.shouldNotRetry (e i) = false)
    (hstop : SimpleRetry.shouldNotRetry (e (k - 1)) = true) :
    SimpleRetry.execute (fun m => (f m, m + 1)) options 0 =
      ({ success := false, data := none, error := some (e (k - 1)),
         attempts := (mergeOptions SimpleRetry.DEFAULT_OPTIONS options).maxAttempts,
         totalDelay := SimpleRetry.delaysFrom
           (mergeOptions SimpleRetry.DEFAULT_OPTIONS options) 1 (k - 1) }, k) := by
  have h := SimpleRetry.executeAux_nonretryable f e
    (mergeOptions SimpleRetry.DEFAULT_OPTIONS options) k
    (mergeOptions SimpleRetry.DEFAULT_OPTIONS options).maxAttempts 1 0 none 0
    h1 hmax (fun i hi => by simpa using herr i hi)
    (fun i hi => by simpa using hretry i hi) (by simpa using hstop)
  simpa [SimpleRetry.execute] using h

/-- An operation that always fails with the non-retryable message
`"invalid api key"`. -/
def alwaysInvalidKey {α : Type} : Nat → Except String α :=
  fun _ => .error "invalid api key"

/-- C5 counterexample to the claim as stated: with the default options
(`maxAttempts = 3`) and an operation that always fails with
`"invalid api key"`, the engine performs exactly one invocation (the threaded
counter ends at 1), yet the returned outcome's `attempts` field is 3 — not the
number of attempts actually performed. -/
theorem execute_attempts_misreported :
    (SimpleRetry.execute (fun m => (alwaysInvalidKey (α := Unit) m, m + 1)) {} 0).2 = 1 ∧
    (SimpleRetry.execute (fun m => (alwaysInvalidKey (α := Unit) m, m + 1)) {} 0).1.attempts = 3 ∧
    (SimpleRetry.execute (fun m => (alwaysInvalidKey (α := Unit) m, m + 1)) {} 0).1.attempts ≠
      (SimpleRetry.execute (fun m => (alwaysInvalidKey (α := Unit) m, m + 1)) {} 0).2 := by
  refine ⟨by decide, by decide, by decide⟩

/-- C5 witness: the amended theorem at the concrete always-failing operation,
`k = 1`, default options — one invocation, zero delay, `attempts = 3`. -/
theorem execute_nonretryable_aborts_witness :
    SimpleRetry.execute (fun m => (alwaysInvalidKey (α := Unit) m, m + 1)) {} 0 =
      ({ success := false, data := none, error := some "invalid api key",
         attempts := 3, totalDelay := 0 }, 1) := by
  have h := execute_nonretryable_aborts (alwaysInvalidKey (α := Unit))
    (fun _ => "invalid api key") 1 {} (by decide) (by decide)
    (fun i _ => rfl) (fun i hi => absurd hi (by omega)) (by decide)
  simpa [SimpleRetry.delaysFrom] using h

/-! ## Claim C2 — dry runs perform no store call -/

/-- The dry-run message each of the three apply paths produces. -/
def dryRunMessage : SuggestionContent → String
  | .plan c => "Dry run: Would create " ++ toString c.goals.length ++ " goals"
  | .briefing c => "Dry run: Would update " ++ toString c.todaysTasks.length ++ " tasks"
  | .reschedule c => "Dry run: Would update " ++ toString c.affectedTasks.length ++ " tasks"

/-- C2: with `dryRun = true`, applying a suggestion of any of the three kinds
leaves the store-interaction state untouched (no store call of any sort — in
particular no create or update — is made), returns the kind's hypothetical
count message, and iterating the dry run any number of times still leaves the
state exactly as it was. -/
theorem applySuggestion_dryRun_noop (env : ApplyEnv) (s : Suggestion)
    (opts : ApplyOptions) (st : ApplySt) (h : opts.dryRun = true) :
    (SuggestionApplicator.applySuggestion env s opts st).2 = st ∧
    (SuggestionApplicator.applySuggestion env s opts st).1.message =
      dryRunMessage s.content ∧
    ∀ n : Nat,
      (fun t => (SuggestionApplicator.applySuggestion env s opts t).2)^[n] st = st := by
  obtain ⟨uid, content⟩ := s
  have hstate : ∀ t : ApplySt,
      (SuggestionApplicator.applySuggestion env ⟨uid, content⟩ opts t).2 = t := by
    intro t
    cases content <;>
      simp [SuggestionApplicator.applySuggestion,
        SuggestionApplicator.applyPlanSuggestion,
        SuggestionApplicator.applyBriefingSuggestion,
        SuggestionApplicator.applyRescheduleSuggestion, h]
  refine ⟨hstate st, ?_, fun n => Function.iterate_fixed (hstate st) n⟩
  cases content <;>
    simp [SuggestionApplicator.applySuggestion,
      SuggestionApplicator.applyPlanSuggestion,
      SuggestionApplicator.applyBriefingSuggestion,
      SuggestionApplicator.applyRescheduleSuggestion, dryRunMessage, h]

/-- C2 witness: a concrete two-goal plan suggestion applied as a dry run
against a store that is down (every call would fail): the state is untouched
and the message announces the hypothetical count. -/
theorem applySuggestion_dryRun_noop_witness :
    (SuggestionApplicator.applySuggestion
        ⟨fun _ => some "store down", fun _ => [], fun _ => []⟩
        ⟨"u", .plan ⟨[⟨"a", "", "c", []⟩, ⟨"b", "", "c", []⟩]⟩⟩
        ⟨true, none, true⟩ ⟨0, []⟩).2 = ⟨0, []⟩ ∧
    (SuggestionApplicator.applySuggestion
        ⟨fun _ => some "store down", fun _ => [], fun _ => []⟩
        ⟨"u", .plan ⟨[⟨"a", "", "c", []⟩, ⟨"b", "", "c", []⟩]⟩⟩
        ⟨true, none, true⟩ ⟨0, []⟩).1.message =
      dryRunMessage (.plan ⟨[⟨"a", "", "c", []⟩, ⟨"b", "", "c", []⟩]⟩) ∧
    ∀ n : Nat,
      (fun t => (SuggestionApplicator.applySuggestion
        ⟨fun _ => some "store down", fun _ => [], fun _ => []⟩
        ⟨"u", .plan ⟨[⟨"a", "", "c", []⟩, ⟨"b", "", "c", []⟩]⟩⟩
        ⟨true, none, true⟩ t).2)^[n] ⟨0, []⟩ = ⟨0, []⟩ :=
  applySuggestion_dryRun_noop
    ⟨fun _ => some "store down", fun _ => [], fun _ => []⟩
    ⟨"u", .plan ⟨[⟨"a", "", "c", []⟩, ⟨"b", "", "c", []⟩]⟩⟩
    ⟨true, none, true⟩ ⟨0, []⟩ rfl

/-! ## Supporting lemmas: the plan application loop -/

namespace SuggestionApplicator

theorem excludedBySelection_applyAll (opts : ApplyOptions) (hall : opts.applyAll = true)
    (x : String) : excludedBySelection opts x = false := by
  simp [excludedBySelection, hall]

theorem insertTasksLoop_success (env : ApplyEnv) (uid : String) (ts : List PlanTask)
    (res : ApplyResult) (st : ApplySt) :
    (insertTasksLoop env uid ts res st).1.success = res.success := by
  induction ts generalizing res st with
  | nil => rfl
  | cons t ts ih =>
    rcases hc : env.callFails st.idx with _ | m <;>
      simp [insertTasksLoop, storeCall, hc, ih]

theorem applyPlanGoal_success (env : ApplyEnv) (uid : String) (opts : ApplyOptions)
    (g : PlanGoal) (res : ApplyResult) (st : ApplySt) :
    (applyPlanGoal env uid opts g res st).1.success = res.success := by
  unfold applyPlanGoal
  by_cases hex : excludedBySelection opts g.title
  · simp [hex]
  · rcases hc : env.callFails st.idx with _ | m
    · have hts := insertTasksLoop_success env uid g.tasks
        { res with createdGoals := res.createdGoals + 1,
                   appliedItems := res.appliedItems ++ [g.title] }
        ⟨st.idx + 1, st.trace ++ [.insertGoal uid g.title]⟩
      rcases hloop : insertTasksLoop env uid g.tasks
        { res with createdGoals := res.createdGoals + 1,
                   appliedItems := res.appliedItems ++ [g.title] }
        ⟨st.idx + 1, st.trace ++ [.insertGoal uid g.title]⟩ with ⟨res2, st2, err⟩
      rw [hloop] at hts
      cases err <;> simp_all [storeCall, hc]
    · simp [hex, storeCall, hc]

theorem applyPlanGoals_success (env : ApplyEnv) (uid : String) (opts : ApplyOptions)
    (gs : List PlanGoal) (res : ApplyResult) (st : ApplySt) :
    (applyPlanGoals env uid opts gs res st).1.success = res.success := by
  induction gs generalizing res st with
  | nil => rfl
  | cons g gs ih =>
    simp only [applyPlanGoals]
    rw [ih, applyPlanGoal_success]

theorem insertTasksLoop_all_ok (env : ApplyEnv) (uid : String) (ts : List PlanTask) :
    ∀ (res : ApplyResult) (st : ApplySt),
      (∀ i, i < ts.length → env.callFails (st.idx + i) = none) →
      insertTasksLoop env uid ts res st =
        ({ res with createdTasks := res.createdTasks + ts.length },
         ⟨st.idx + ts.length,
          st.trace ++ ts.map (fun t => StoreOp.insertTask uid t.title)⟩, none) := by
  induction ts with
  | nil => intro res st _; simp [insertTasksLoop]
  | cons t ts ih =>
    intro res st h
    have hc : env.callFails st.idx = none := by simpa using h 0 (by simp)
    have hrec := ih { res with createdTasks := res.createdTasks + 1 }
      ⟨st.idx + 1, st.trace ++ [StoreOp.insertTask uid t.title]⟩
      (fun i hi => by
        have := h (i + 1) (by simpa using Nat.succ_lt_succ hi)
        simpa [Nat.add_assoc, Nat.add_comm 1 i] using this)
    simp only [insertTasksLoop, storeCall, hc]
    rw [hrec]
    simp [Nat.add_assoc, Nat.add_comm 1 ts.length, List.append_assoc]

theorem applyPlanGoal_insert_fails (env : ApplyEnv) (uid m : String) (opts : ApplyOptions)
    (g : PlanGoal) (res : ApplyResult) (st : ApplySt) (hall : opts.applyAll = true)
    (hc : env.callFails st.idx = some m) :
    applyPlanGoal env uid opts g res st =
      ({ res with errors := res.errors ++ [planGoalErr g.title m],
                  skippedItems := res.skippedItems ++ [g.title] },
       ⟨st.idx + 1, st.trace ++ [StoreOp.insertGoal uid g.title]⟩) := by
  simp [applyPlanGoal, excludedBySelection_applyAll opts hall, storeCall, hc]

theorem applyPlanGoal_all_ok (env : ApplyEnv) (uid : String) (opts : ApplyOptions)
    (g : PlanGoal) (res : ApplyResult) (st : ApplySt) (hall : opts.applyAll = true)
    (hc : env.callFails st.idx = none)
    (ht : ∀ i, i < g.tasks.length → env.callFails (st.idx + 1 + i) = none) :
    applyPlanGoal env uid opts g res st =
      ({ res with createdGoals := res.createdGoals + 1,
                  appliedItems := res.appliedItems ++ [g.title],
                  createdTasks := res.createdTasks + g.tasks.length },
       ⟨st.idx + 1 + g.tasks.length,
        st.trace ++ [StoreOp.insertGoal uid g.title] ++
          g.tasks.map (fun t => StoreOp.insertTask uid t.title)⟩) := by
  have hloop := insertTasksLoop_all_ok env uid g.tasks
    { res with createdGoals := res.createdGoals + 1,
               appliedItems := res.appliedItems ++ [g.title] }
    ⟨st.idx + 1, st.trace ++ [StoreOp.insertGoal uid g.title]⟩ ht
  simp only [applyPlanGoal, excludedBySelection_applyAll opts hall, Bool.false_eq_true,
    if_false, storeCall, hc]
  rw [hloop]

theorem insertTasksLoop_fail_at (env : ApplyEnv) (uid m : String) :
    ∀ (j : Nat) (ts : List PlanTask) (res : ApplyResult) (st : ApplySt),
      j < ts.length →
      (∀ i, i < j → env.callFails (st.idx + i) = none) →
      env.callFails (st.idx + j) = some m →
      ∃ st2, insertTasksLoop env uid ts res st =
        ({ res with createdTasks := res.createdTasks + j }, st2, some m) := by
  intro j
  induction j with
  | zero =>
    intro ts res st hj _ hjf
    obtain ⟨t, ts, rfl⟩ : ∃ t ts0, ts = t :: ts0 := by
      cases ts with
      | nil => exact absurd hj (by simp)
      | cons a b => exact ⟨a, b, rfl⟩
    have hc : env.callFails st.idx = some m := by simpa using hjf
    exact ⟨⟨st.idx + 1, st.trace ++ [StoreOp.insertTask uid t.title]⟩,
      by simp [insertTasksLoop, storeCall, hc]⟩
  | succ j ih =>
    intro ts res st hj hts hjf
    obtain ⟨t, ts, rfl⟩ : ∃ t ts0, ts = t :: ts0 := by
      cases ts with
      | nil => exact absurd hj (by simp)
      | cons a b => exact ⟨a, b, rfl⟩
    have hc : env.callFails st.idx = none := by simpa using hts 0 (by omega)
    obtain ⟨st2, hrec⟩ := ih ts { res with createdTasks := res.createdTasks + 1 }
      ⟨st.idx + 1, st.trace ++ [StoreOp.insertTask uid t.title]⟩
      (by simpa using hj)
      (fun i hi => by
        have := hts (i + 1) (by omega)
        simpa [Nat.add_assoc, Nat.add_comm 1 i] using this)
      (by
        have h1 : st.idx + 1 + j = st.idx + (j + 1) := by omega
        rw [h1]; exact hjf)
    refine ⟨st2, ?_⟩
    simp only [insertTasksLoop, storeCall, hc]
    rw [hrec]
    simp [Nat.add_assoc, Nat.add_comm 1 j]

theorem applyPlanGoal_task_fails (env : ApplyEnv) (uid m : String) (opts : ApplyOptions)
    (g : PlanGoal) (res : ApplyResult) (st : ApplySt) (j : Nat)
    (hall : opts.applyAll = true)
    (hc : env.callFails st.idx = none)
    (hj : j < g.tasks.length)
    (hts : ∀ i, i < j → env.callFails (st.idx + 1 + i) = none)
    (hjf : env.callFails (st.idx + 1 + j) = some m) :
    ∃ st2, applyPlanGoal env uid opts g res st =
      ({ res with createdGoals := res.createdGoals + 1,
                  appliedItems := res.appliedItems ++ [g.title],
                  createdTasks := res.createdTasks + j,
                  errors := res.errors ++ [planGoalErr g.title m],
                  skippedItems := res.skippedItems ++ [g.title] }, st2) := by
  obtain ⟨st2, hloop⟩ := insertTasksLoop_fail_at env uid m j g.tasks
    { res with createdGoals := res.createdGoals + 1,
               appliedItems := res.appliedItems ++ [g.title] }
    ⟨st.idx + 1, st.trace ++ [StoreOp.insertGoal uid g.title]⟩ hj hts hjf
  refine ⟨st2, ?_⟩
  simp only [applyPlanGoal, excludedBySelection_applyAll opts hall, Bool.false_eq_true,
    if_false, storeCall, hc]
  rw [hloop]

end SuggestionApplicator

/-! ## Claim C1 — plan application with a failing middle goal -/

/-- C1: applying a three-goal plan where the store insert of goal #2 throws
(and every other store call succeeds) creates goals 1 and 3 (with all their
tasks), reports `createdGoals = 2`, `appliedItems = [g1, g3]`,
`skippedItems = [g2]`, exactly one error and `success = false`; and in
general a plan application's `success` is `true` iff its `errors` list is
empty. -/
theorem applyPlan_partial_failure (env : ApplyEnv) (uid m : String)
    (g1 g2 g3 : PlanGoal) (opts : ApplyOptions)
    (hall : opts.applyAll = true) (hdry : opts.dryRun = false)
    (hfail : env.callFails (1 + g1.tasks.length) = some m)
    (hok : ∀ j, j ≠ 1 + g1.tasks.length → env.callFails j = none) :
    ((SuggestionApplicator.applyPlanSuggestion env uid ⟨[g1, g2, g3]⟩ opts
        ⟨0, []⟩).1.createdGoals = 2 ∧
     (SuggestionApplicator.applyPlanSuggestion env uid ⟨[g1, g2, g3]⟩ opts
        ⟨0, []⟩).1.appliedItems = [g1.title, g3.title] ∧
     (SuggestionApplicator.applyPlanSuggestion env uid ⟨[g1, g2, g3]⟩ opts
        ⟨0, []⟩).1.skippedItems = [g2.title] ∧
     (SuggestionApplicator.applyPlanSuggestion env uid ⟨[g1, g2, g3]⟩ opts
        ⟨0, []⟩).1.errors.length = 1 ∧
     (SuggestionApplicator.applyPlanSuggestion env uid ⟨[g1, g2, g3]⟩ opts
        ⟨0, []⟩).1.success = false) ∧
    (∀ (env2 : ApplyEnv) (uid2 : String) (c2 : PlanContent) (opts2 : ApplyOptions)
        (st2 : ApplySt),
      ((SuggestionApplicator.applyPlanSuggestion env2 uid2 c2 opts2 st2).1.success = true ↔
       (SuggestionApplicator.applyPlanSuggestion env2 uid2 c2 opts2 st2).1.errors = [])) := by
  constructor
  · have e1 := SuggestionApplicator.applyPlanGoal_all_ok env uid opts g1
      { success := true, message := "Plan suggestion applied successfully",
        appliedItems := [], skippedItems := [], errors := [],
        createdGoals := 0, createdTasks := 0 } ⟨0, []⟩ hall
      (hok 0 (by omega)) (fun i hi => hok (0 + 1 + i) (by omega))
    have e1n : SuggestionApplicator.applyPlanGoal env uid opts g1
        { success := true, message := "Plan suggestion applied successfully",
          appliedItems := [], skippedItems := [], errors := [],
          createdGoals := 0, createdTasks := 0 } ⟨0, []⟩ =
        ({ success := true, message := "Plan suggestion applied successfully",
           appliedItems := [g1.title], skippedItems := [], errors := [],
           createdGoals := 1, createdTasks := g1.tasks.length },
         ⟨1 + g1.tasks.length,
          StoreOp.insertGoal uid g1.title ::
            g1.tasks.map (fun t => StoreOp.insertTask uid t.title)⟩) := by
      rw [e1]; simp [Nat.add_comm]
    have e2 := SuggestionApplicator.applyPlanGoal_insert_fails env uid m opts g2
      { success := true, message := "Plan suggestion applied successfully",
        appliedItems := [g1.title], skippedItems := [], errors := [],
        createdGoals := 1, createdTasks := g1.tasks.length }
      ⟨1 + g1.tasks.length,
       StoreOp.insertGoal uid g1.title ::
         g1.tasks.map (fun t => StoreOp.insertTask uid t.title)⟩ hall hfail
    have e3 := SuggestionApplicator.applyPlanGoal_all_ok env uid opts g3
      { success := true, message := "Plan suggestion applied successfully",
        appliedItems := [g1.title], skippedItems := [g2.title],
        errors := [SuggestionApplicator.planGoalErr g2.title m],
        createdGoals := 1, createdTasks := g1.tasks.length }
      ⟨1 + g1.tasks.length + 1,
       StoreOp.insertGoal uid g1.title ::
         (g1.tasks.map (fun t => StoreOp.insertTask uid t.title) ++
           [StoreOp.insertGoal uid g2.title])⟩ hall
      (hok (1 + g1.tasks.length + 1) (by omega))
      (fun i hi => hok (1 + g1.tasks.length + 1 + 1 + i) (by omega))
    refine ⟨?_, ?_, ?_, ?_, ?_⟩ <;>
      · simp only [SuggestionApplicator.applyPlanSuggestion, hdry, Bool.false_eq_true,
          if_false, SuggestionApplicator.applyPlanGoals]
        simp [e1n, e2, e3]
  · intro env2 uid2 c2 opts2 st2
    by_cases hd : opts2.dryRun = true
    · simp [SuggestionApplicator.applyPlanSuggestion, hd]
    · have hd2 : opts2.dryRun = false := by simpa using hd
      simp only [SuggestionApplicator.applyPlanSuggestion, hd2, Bool.false_eq_true,
        if_false]
      have hsucc := SuggestionApplicator.applyPlanGoals_success env2 uid2 opts2 c2.goals
        { success := true, message := "Plan suggestion applied successfully",
          appliedItems := [], skippedItems := [], errors := [],
          createdGoals := 0, createdTasks := 0 } st2
      by_cases he : 0 < (SuggestionApplicator.applyPlanGoals env2 uid2 opts2 c2.goals
          { success := true, message := "Plan suggestion applied successfully",
            appliedItems := [], skippedItems := [], errors := [],
            createdGoals := 0, createdTasks := 0 } st2).1.errors.length
      · have hne := List.ne_nil_of_length_pos he
        simp [he, hne]
      · have hnil := List.length_eq_zero.mp (Nat.le_zero.mp (Nat.not_lt.mp he))
        simp [he, hsucc, hnil]

/-- A store oracle whose second call (index 1) throws and whose other calls
succeed. -/
def failSecondCallEnv : ApplyEnv :=
  { callFails := fun i => if i = 1 then some "db down" else none,
    goalsByUser := fun _ => [],
    tasksByUser := fun _ => [] }

/-- C1 witness: three concrete task-free goals against `failSecondCallEnv`
(call 0 = goal 1's insert succeeds, call 1 = goal 2's insert throws,
call 2 = goal 3's insert succeeds). -/
theorem applyPlan_partial_failure_witness :
    ((SuggestionApplicator.applyPlanSuggestion failSecondCallEnv "u"
        ⟨[⟨"g1", "", "c", []⟩, ⟨"g2", "", "c", []⟩, ⟨"g3", "", "c", []⟩]⟩
        ⟨true, none, false⟩ ⟨0, []⟩).1.createdGoals = 2 ∧
     (SuggestionApplicator.applyPlanSuggestion failSecondCallEnv "u"
        ⟨[⟨"g1", "", "c", []⟩, ⟨"g2", "", "c", []⟩, ⟨"g3", "", "c", []⟩]⟩
        ⟨true, none, false⟩ ⟨0, []⟩).1.appliedItems = ["g1", "g3"] ∧
     (SuggestionApplicator.applyPlanSuggestion failSecondCallEnv "u"
        ⟨[⟨"g1", "", "c", []⟩, ⟨"g2", "", "c", []⟩, ⟨"g3", "", "c", []⟩]⟩
        ⟨true, none, false⟩ ⟨0, []⟩).1.skippedItems = ["g2"] ∧
     (SuggestionApplicator.applyPlanSuggestion failSecondCallEnv "u"
        ⟨[⟨"g1", "", "c", []⟩, ⟨"g2", "", "c", []⟩, ⟨"g3", "", "c", []⟩]⟩
        ⟨true, none, false⟩ ⟨0, []⟩).1.errors.length = 1 ∧
     (SuggestionApplicator.applyPlanSuggestion failSecondCallEnv "u"
        ⟨[⟨"g1", "", "c", []⟩, ⟨"g2", "", "c", []⟩, ⟨"g3", "", "c", []⟩]⟩
        ⟨true, none, false⟩ ⟨0, []⟩).1.success = false) ∧
    (∀ (env2 : ApplyEnv) (uid2 : String) (c2 : PlanContent) (opts2 : ApplyOptions)
        (st2 : ApplySt),
      ((SuggestionApplicator.applyPlanSuggestion env2 uid2 c2 opts2 st2).1.success = true ↔
       (SuggestionApplicator.applyPlanSuggestion env2 uid2 c2 opts2 st2).1.errors = [])) :=
  applyPlan_partial_failure failSecondCallEnv "u" "db down"
    ⟨"g1", "", "c", []⟩ ⟨"g2", "", "c", []⟩ ⟨"g3", "", "c", []⟩
    ⟨true, none, false⟩ rfl rfl (by decide)
    (fun j hj => by
      have hj1 : ¬ j = 1 := by simpa using hj
      simp [failSecondCallEnv, hj1])

/-! ## Claim C10 — applied and skipped lists can overlap -/

/-- C10: when a goal's own insert succeeds but one of its task inserts then
throws, the per-goal catch records the goal as skipped even though it was
already counted applied — the goal's title ends up in `appliedItems` *and*
`skippedItems` of the same result, and `createdGoals` still counts it, so the
two lists are not disjoint. -/
theorem applyPlan_applied_skipped_overlap (env : ApplyEnv) (uid m : String)
    (g : PlanGoal) (opts : ApplyOptions) (j : Nat)
    (hall : opts.applyAll = true) (hdry : opts.dryRun = false)
    (h0 : env.callFails 0 = none)
    (hj : j < g.tasks.length)
    (hts : ∀ i, i < j → env.callFails (1 + i) = none)
    (hjf : env.callFails (1 + j) = some m) :
    (SuggestionApplicator.applyPlanSuggestion env uid ⟨[g]⟩ opts
        ⟨0, []⟩).1.appliedItems = [g.title] ∧
    (SuggestionApplicator.applyPlanSuggestion env uid ⟨[g]⟩ opts
        ⟨0, []⟩).1.skippedItems = [g.title] ∧
    (SuggestionApplicator.applyPlanSuggestion env uid ⟨[g]⟩ opts
        ⟨0, []⟩).1.createdGoals = 1 ∧
    (SuggestionApplicator.applyPlanSuggestion env uid ⟨[g]⟩ opts
        ⟨0, []⟩).1.success = false := by
  obtain ⟨st2, e1⟩ := SuggestionApplicator.applyPlanGoal_task_fails env uid m opts g
    { success := true, message := "Plan suggestion applied successfully",
      appliedItems := [], skippedItems := [], errors := [],
      createdGoals := 0, createdTasks := 0 } ⟨0, []⟩ j hall h0 hj hts hjf
  refine ⟨?_, ?_, ?_, ?_⟩ <;>
    · simp only [SuggestionApplicator.applyPlanSuggestion, hdry, Bool.false_eq_true,
        if_false, SuggestionApplicator.applyPlanGoals]
      simp [e1]

/-- C10 witness: one goal with two tasks; the goal insert (call 0) succeeds
and the first task insert (call 1) throws. -/
theorem applyPlan_applied_skipped_overlap_witness :
    (SuggestionApplicator.applyPlanSuggestion failSecondCallEnv "u"
        ⟨[⟨"G", "", "c", [⟨"t1", .high, none⟩, ⟨"t2", .low, none⟩]⟩]⟩
        ⟨true, none, false⟩ ⟨0, []⟩).1.appliedItems = ["G"] ∧
    (SuggestionApplicator.applyPlanSuggestion failSecondCallEnv "u"
        ⟨[⟨"G", "", "c", [⟨"t1", .high, none⟩, ⟨"t2", .low, none⟩]⟩]⟩
        ⟨true, none, false⟩ ⟨0, []⟩).1.skippedItems = ["G"] ∧
    (SuggestionApplicator.applyPlanSuggestion failSecondCallEnv "u"
        ⟨[⟨"G", "", "c", [⟨"t1", .high, none⟩, ⟨"t2", .low, none⟩]⟩]⟩
        ⟨true, none, false⟩ ⟨0, []⟩).1.createdGoals = 1 ∧
    (SuggestionApplicator.applyPlanSuggestion failSecondCallEnv "u"
        ⟨[⟨"G", "", "c", [⟨"t1", .high, none⟩, ⟨"t2", .low, none⟩]⟩]⟩
        ⟨true, none, false⟩ ⟨0, []⟩).1.success = false :=
  applyPlan_applied_skipped_overlap failSecondCallEnv "u" "db down"
    ⟨"G", "", "c", [⟨"t1", .high, none⟩, ⟨"t2", .low, none⟩]⟩
    ⟨true, none, false⟩ 0 rfl rfl (by decide) (by decide)
    (fun i hi => absurd hi (by omega)) (by decide)

/-! ## Supporting lemmas: the generation service -/

/-- A retried operation that succeeds on its first invocation ends the retry
loop immediately with one attempt and no delay. -/
theorem execute_first_ok {σ α : Type} (op : σ → Except String α × σ)
    (popts : RetryOptionsPartial) (s s1 : σ) (d : α)
    (hop : op s = (.ok d, s1))
    (hpos : 0 < (mergeOptions SimpleRetry.DEFAULT_OPTIONS popts).maxAttempts) :
    SimpleRetry.execute op popts s =
      ({ success := true, data := some d, error := none, attempts := 1,
         totalDelay := 0 }, s1) := by
  unfold SimpleRetry.execute
  obtain ⟨fl, hm⟩ :
      ∃ fl, (mergeOptions SimpleRetry.DEFAULT_OPTIONS popts).maxAttempts = fl + 1 :=
    ⟨_, (Nat.succ_pred_eq_of_pos hpos).symm⟩
  dsimp only
  rw [hm]
  simp [SimpleRetry.executeAux, hop]

/-- The model path of `generatePlan` with a user, when the provider's next
response arrives on the first attempt and parses: the content is transformed,
cached at `now` with the plan TTL, usage is recorded, and the provider was
invoked exactly once more. -/
theorem generatePlanModelPath_ok_user (env : GenPlanEnv) (input : GeneratePlanInput)
    (uid : String) (now : Nat) (key : String) (st : GenState) (txt : String)
    (parsed : ParsedPlan)
    (hprov : env.provider st.providerCalls = .ok txt)
    (hparse : env.parse txt = .ok parsed) :
    AIService.generatePlanModelPath env input (some uid) now key st =
      (.ok (AIService.transformPlan env parsed),
       { st with
         providerCalls := st.providerCalls + 1,
         cache := SimpleCache.set st.cache key (AIService.transformPlan env parsed)
           CACHE_TTL_PLAN_GENERATION now,
         limiter := SimpleRateLimiter.recordUsage st.limiter uid .plan,
         recordCalls := st.recordCalls + 1 }) := by
  have hop : AIService.providerOp env st =
      (.ok txt, { st with providerCalls := st.providerCalls + 1 }) := by
    simp [AIService.providerOp, hprov]
  unfold AIService.generatePlanModelPath
  rw [show SimpleRetry.executeWithStrategy (AIService.providerOp env) .aiService {} st =
    SimpleRetry.execute (AIService.providerOp env)
      (SimpleRetry.getStrategyOptions .aiService {}) st from rfl]
  rw [execute_first_ok (AIService.providerOp env)
    (SimpleRetry.getStrategyOptions .aiService {}) st
    { st with providerCalls := st.providerCalls + 1 } txt hop (by decide)]
  simp [hparse]

/-- A cache hit short-circuits `generatePlan` to the cached content; only the
cache field of the state (its statistics) changes. -/
theorem generatePlan_cache_hit (env : GenPlanEnv) (input : GeneratePlanInput)
    (userId : Option String) (now : Nat) (st : GenState) (v : PlanContent)
    (c2 : SimpleCacheState PlanContent)
    (hget : SimpleCache.get st.cache now (AIService.planCacheKey input) = (some v, c2)) :
    AIService.generatePlan env input userId now st = (.ok v, { st with cache := c2 }) := by
  unfold AIService.generatePlan
  dsimp only
  rw [hget]

/-- A cache miss followed by an allowed rate-limit check, a first-attempt
provider success and a clean parse: the full success path of `generatePlan`,
with every counter bumped exactly once. -/
theorem generatePlan_miss_allowed (env : GenPlanEnv) (input : GeneratePlanInput)
    (uid : String) (now : Nat) (st : GenState) (txt : String) (parsed : ParsedPlan)
    (hmiss : SimpleCache.lookupEntry st.cache.entries (AIService.planCacheKey input) = none)
    (hallow : (SimpleRateLimiter.checkLimit st.limiter uid .plan).1.allowed = true)
    (hprov : env.provider st.providerCalls = .ok txt)
    (hparse : env.parse txt = .ok parsed) :
    AIService.generatePlan env input (some uid) now st =
      (.ok (AIService.transformPlan env parsed),
       { cache := SimpleCache.set
           { st.cache with stats := { st.cache.stats with
               misses := st.cache.stats.misses + 1 } }
           (AIService.planCacheKey input) (AIService.transformPlan env parsed)
           CACHE_TTL_PLAN_GENERATION now,
         limiter := SimpleRateLimiter.recordUsage
           (SimpleRateLimiter.checkLimit st.limiter uid .plan).2 uid .plan,
         providerCalls := st.providerCalls + 1,
         checkCalls := st.checkCalls + 1,
         recordCalls := st.recordCalls + 1 }) := by
  have hget := SimpleCache.get_miss st.cache now (AIService.planCacheKey input) hmiss
  unfold AIService.generatePlan
  dsimp only
  rw [hget]
  simp only [hallow, if_true]
  exact generatePlanModelPath_ok_user env input uid now (AIService.planCacheKey input)
    _ txt parsed hprov hparse

/-! ## Cached idempotence, kind by kind -/

/-- The plan kind: two `generatePlan` calls with the same user and identical
normalized parameters, the second within the plan TTL of the first, where the
key is initially uncached, the limiter allows the request and the model
answers and parses on the first attempt: the first call performs the model
path (provider invoked once, `checkLimit` and `recordUsage` invoked once,
result cached); the second call returns exactly the first call's content from
the cache and touches nothing (only the hit statistic moves). -/
theorem generatePlan_cached_idempotent (env : GenPlanEnv) (input : GeneratePlanInput)
    (uid : String) (st0 : GenState) (t1 t2 : Nat) (txt : String) (parsed : ParsedPlan)
    (hmiss : SimpleCache.lookupEntry st0.cache.entries (AIService.planCacheKey input) = none)
    (hallow : (SimpleRateLimiter.checkLimit st0.limiter uid .plan).1.allowed = true)
    (hprov : env.provider st0.providerCalls = .ok txt)
    (hparse : env.parse txt = .ok parsed)
    (httl : t2 - t1 ≤ CACHE_TTL_PLAN_GENERATION) :
    (AIService.generatePlan env input (some uid) t1 st0).1 =
      .ok (AIService.transformPlan env parsed) ∧
    (AIService.generatePlan env input (some uid) t2
        (AIService.generatePlan env input (some uid) t1 st0).2).1 =
      (AIService.generatePlan env input (some uid) t1 st0).1 ∧
    (AIService.generatePlan env input (some uid) t1 st0).2.providerCalls =
      st0.providerCalls + 1 ∧
    (AIService.generatePlan env input (some uid) t1 st0).2.checkCalls =
      st0.checkCalls + 1 ∧
    (AIService.generatePlan env input (some uid) t1 st0).2.recordCalls =
      st0.recordCalls + 1 ∧
    (AIService.generatePlan env input (some uid) t2
        (AIService.generatePlan env input (some uid) t1 st0).2).2.providerCalls =
      (AIService.generatePlan env input (some uid) t1 st0).2.providerCalls ∧
    (AIService.generatePlan env input (some uid) t2
        (AIService.generatePlan env input (some uid) t1 st0).2).2.checkCalls =
      (AIService.generatePlan env input (some uid) t1 st0).2.checkCalls ∧
    (AIService.generatePlan env input (some uid) t2
        (AIService.generatePlan env input (some uid) t1 st0).2).2.recordCalls =
      (AIService.generatePlan env input (some uid) t1 st0).2.recordCalls ∧
    (AIService.generatePlan env input (some uid) t2
        (AIService.generatePlan env input (some uid) t1 st0).2).2.limiter =
      (AIService.generatePlan env input (some uid) t1 st0).2.limiter ∧
    (AIService.generatePlan env input (some uid) t2
        (AIService.generatePlan env input (some uid) t1 st0).2).2.cache.entries =
      (AIService.generatePlan env input (some uid) t1 st0).2.cache.entries := by
  have hrun1 := generatePlan_miss_allowed env input uid t1 st0 txt parsed
    hmiss hallow hprov hparse
  have hhit := SimpleCache.get_hit_after_set
    { st0.cache with stats := { st0.cache.stats with
        misses := st0.cache.stats.misses + 1 } }
    (AIService.planCacheKey input) (AIService.transformPlan env parsed)
    CACHE_TTL_PLAN_GENERATION t1 t2 httl
  have hrun2 := generatePlan_cache_hit env input (some uid) t2
    (AIService.generatePlan env input (some uid) t1 st0).2
    (AIService.transformPlan env parsed) _
    (by rw [hrun1]; exact hhit)
  rw [hrun2, hrun1]
  refine ⟨rfl, rfl, rfl, rfl, rfl, rfl, rfl, rfl, rfl, rfl⟩

/-- The briefing-kind analogue of `generatePlanModelPath_ok_user`. -/
theorem generateBriefingModelPath_ok_user (env : GenBriefingEnv)
    (input : GenerateBriefingInput) (uid : String) (now : Nat) (key : String)
    (st : GenKindState BriefingContent) (txt : String) (parsed : ParsedBriefing)
    (hprov : env.provider st.providerCalls = .ok txt)
    (hparse : env.parse txt = .ok parsed) :
    AIService.generateBriefingModelPath env input (some uid) now key st =
      (.ok (AIService.transformBriefing input parsed),
       { st with
         providerCalls := st.providerCalls + 1,
         cache := SimpleCache.set st.cache key (AIService.transformBriefing input parsed)
           CACHE_TTL_BRIEFING_GENERATION now,
         limiter := SimpleRateLimiter.recordUsage st.limiter uid .briefing,
         recordCalls := st.recordCalls + 1 }) := by
  have hop : AIService.providerOpBriefing env st =
      (.ok txt, { st with providerCalls := st.providerCalls + 1 }) := by
    simp [AIService.providerOpBriefing, hprov]
  unfold AIService.generateBriefingModelPath
  rw [show SimpleRetry.executeWithStrategy (AIService.providerOpBriefing env)
      .aiService {} st =
    SimpleRetry.execute (AIService.providerOpBriefing env)
      (SimpleRetry.getStrategyOptions .aiService {}) st from rfl]
  rw [execute_first_ok (AIService.providerOpBriefing env)
    (SimpleRetry.getStrategyOptions .aiService {}) st
    { st with providerCalls := st.providerCalls + 1 } txt hop (by decide)]
  simp [hparse]

/-- The briefing-kind analogue of `generatePlan_cache_hit`. -/
theorem generateBriefing_cache_hit (env : GenBriefingEnv)
    (input : GenerateBriefingInput) (userId : Option String) (now : Nat)
    (st : GenKindState BriefingContent) (v : BriefingContent)
    (c2 : SimpleCacheState BriefingContent)
    (hget : SimpleCache.get st.cache now (AIService.briefingCacheKey input) =
      (some v, c2)) :
    AIService.generateBriefing env input userId now st =
      (.ok v, { st with cache := c2 }) := by
  unfold AIService.generateBriefing
  dsimp only
  rw [hget]

/-- The briefing-kind analogue of `generatePlan_miss_allowed`. -/
theorem generateBriefing_miss_allowed (env : GenBriefingEnv)
    (input : GenerateBriefingInput) (uid : String) (now : Nat)
    (st : GenKindState BriefingContent) (txt : String) (parsed : ParsedBriefing)
    (hmiss : SimpleCache.lookupEntry st.cache.entries
      (AIService.briefingCacheKey input) = none)
    (hallow : (SimpleRateLimiter.checkLimit st.limiter uid .briefing).1.allowed = true)
    (hprov : env.provider st.providerCalls = .ok txt)
    (hparse : env.parse txt = .ok parsed) :
    AIService.generateBriefing env input (some uid) now st =
      (.ok (AIService.transformBriefing input parsed),
       { cache := SimpleCache.set
           { st.cache with stats := { st.cache.stats with
               misses := st.cache.stats.misses + 1 } }
           (AIService.briefingCacheKey input) (AIService.transformBriefing input parsed)
           CACHE_TTL_BRIEFING_GENERATION now,
         limiter := SimpleRateLimiter.recordUsage
           (SimpleRateLimiter.checkLimit st.limiter uid .briefing).2 uid .briefing,
         providerCalls := st.providerCalls + 1,
         checkCalls := st.checkCalls + 1,
         recordCalls := st.recordCalls + 1 }) := by
  have hget := SimpleCache.get_miss st.cache now (AIService.briefingCacheKey input) hmiss
  unfold AIService.generateBriefing
  dsimp only
  rw [hget]
  simp only [hallow, if_true]
  exact generateBriefingModelPath_ok_user env input uid now
    (AIService.briefingCacheKey input) _ txt parsed hprov hparse

/-- The briefing kind: cached idempotence of `generateBriefing`. -/
theorem generateBriefing_cached_idempotent (env : GenBriefingEnv)
    (input : GenerateBriefingInput) (uid : String)
    (st0 : GenKindState BriefingContent) (t1 t2 : Nat) (txt : String)
    (parsed : ParsedBriefing)
    (hmiss : SimpleCache.lookupEntry st0.cache.entries
      (AIService.briefingCacheKey input) = none)
    (hallow : (SimpleRateLimiter.checkLimit st0.limiter uid .briefing).1.allowed = true)
    (hprov : env.provider st0.providerCalls = .ok txt)
    (hparse : env.parse txt = .ok parsed)
    (httl : t2 - t1 ≤ CACHE_TTL_BRIEFING_GENERATION) :
    (AIService.generateBriefing env input (some uid) t1 st0).1 =
      .ok (AIService.transformBriefing input parsed) ∧
    (AIService.generateBriefing env input (some uid) t2
        (AIService.generateBriefing env input (some uid) t1 st0).2).1 =
      (AIService.generateBriefing env input (some uid) t1 st0).1 ∧
    (AIService.generateBriefing env input (some uid) t1 st0).2.providerCalls =
      st0.providerCalls + 1 ∧
    (AIService.generateBriefing env input (some uid) t1 st0).2.checkCalls =
      st0.checkCalls + 1 ∧
    (AIService.generateBriefing env input (some uid) t1 st0).2.recordCalls =
      st0.recordCalls + 1 ∧
    (AIService.generateBriefing env input (some uid) t2
        (AIService.generateBriefing env input (some uid) t1 st0).2).2.providerCalls =
      (AIService.generateBriefing env input (some uid) t1 st0).2.providerCalls ∧
    (AIService.generateBriefing env input (some uid) t2
        (AIService.generateBriefing env input (some uid) t1 st0).2).2.checkCalls =
      (AIService.generateBriefing env input (some uid) t1 st0).2.checkCalls ∧
    (AIService.generateBriefing env input (some uid) t2
        (AIService.generateBriefing env input (some uid) t1 st0).2).2.recordCalls =
      (AIService.generateBriefing env input (some uid) t1 st0).2.recordCalls ∧
    (AIService.generateBriefing env input (some uid) t2
        (AIService.generateBriefing env input (some uid) t1 st0).2).2.limiter =
      (AIService.generateBriefing env input (some uid) t1 st0).2.limiter ∧
    (AIService.generateBriefing env input (some uid) t2
        (AIService.generateBriefing env input (some uid) t1 st0).2).2.cache.entries =
      (AIService.generateBriefing env input (some uid) t1 st0).2.cache.entries := by
  have hrun1 := generateBriefing_miss_allowed env input uid t1 st0 txt parsed
    hmiss hallow hprov hparse
  have hhit := SimpleCache.get_hit_after_set
    { st0.cache with stats := { st0.cache.stats with
        misses := st0.cache.stats.misses + 1 } }
    (AIService.briefingCacheKey input) (AIService.transformBriefing input parsed)
    CACHE_TTL_BRIEFING_GENERATION t1 t2 httl
  have hrun2 := generateBriefing_cache_hit env input (some uid) t2
    (AIService.generateBriefing env input (some uid) t1 st0).2
    (AIService.transformBriefing input parsed) _
    (by rw [hrun1]; exact hhit)
  rw [hrun2, hrun1]
  refine ⟨rfl, rfl, rfl, rfl, rfl, rfl, rfl, rfl, rfl, rfl⟩

/-- The reschedule-kind analogue of `generatePlanModelPath_ok_user`. -/
theorem generateRescheduleModelPath_ok_user (env : GenRescheduleEnv)
    (input : GenerateRescheduleInput) (uid : String) (now : Nat) (key : String)
    (st : GenKindState RescheduleContent) (txt : String) (parsed : ParsedReschedule)
    (hprov : env.provider st.providerCalls = .ok txt)
    (hparse : env.parse txt = .ok parsed) :
    AIService.generateRescheduleModelPath env input (some uid) now key st =
      (.ok (AIService.transformReschedule parsed),
       { st with
         providerCalls := st.providerCalls + 1,
         cache := SimpleCache.set st.cache key (AIService.transformReschedule parsed)
           CACHE_TTL_RESCHEDULE_GENERATION now,
         limiter := SimpleRateLimiter.recordUsage st.limiter uid .reschedule,
         recordCalls := st.recordCalls + 1 }) := by
  have hop : AIService.providerOpReschedule env st =
      (.ok txt, { st with providerCalls := st.providerCalls + 1 }) := by
    simp [AIService.providerOpReschedule, hprov]
  unfold AIService.generateRescheduleModelPath
  rw [show SimpleRetry.executeWithStrategy (AIService.providerOpReschedule env)
      .aiService {} st =
    SimpleRetry.execute (AIService.providerOpReschedule env)
      (SimpleRetry.getStrategyOptions .aiService {}) st from rfl]
  rw [execute_first_ok (AIService.providerOpReschedule env)
    (SimpleRetry.getStrategyOptions .aiService {}) st
    { st with providerCalls := st.providerCalls + 1 } txt hop (by decide)]
  simp [hparse]

/-- The reschedule-kind analogue of `generatePlan_cache_hit`. -/
theorem generateReschedule_cache_hit (env : GenRescheduleEnv)
    (input : GenerateRescheduleInput) (userId : Option String) (now : Nat)
    (st : GenKindState RescheduleContent) (v : RescheduleContent)
    (c2 : SimpleCacheState RescheduleContent)
    (hget : SimpleCache.get st.cache now (AIService.rescheduleCacheKey input) =
      (some v, c2)) :
    AIService.generateReschedule env input userId now st =
      (.ok v, { st with cache := c2 }) := by
  unfold AIService.generateReschedule
  dsimp only
  rw [hget]

/-- The reschedule-kind analogue of `generatePlan_miss_allowed`. -/
theorem generateReschedule_miss_allowed (env : GenRescheduleEnv)
    (input : GenerateRescheduleInput) (uid : String) (now : Nat)
    (st : GenKindState RescheduleContent) (txt : String) (parsed : ParsedReschedule)
    (hmiss : SimpleCache.lookupEntry st.cache.entries
      (AIService.rescheduleCacheKey input) = none)
    (hallow : (SimpleRateLimiter.checkLimit st.limiter uid .reschedule).1.allowed = true)
    (hprov : env.provider st.providerCalls = .ok txt)
    (hparse : env.parse txt = .ok parsed) :
    AIService.generateReschedule env input (some uid) now st =
      (.ok (AIService.transformReschedule parsed),
       { cache := SimpleCache.set
           { st.cache with stats := { st.cache.stats with
               misses := st.cache.stats.misses + 1 } }
           (AIService.rescheduleCacheKey input) (AIService.transformReschedule parsed)
           CACHE_TTL_RESCHEDULE_GENERATION now,
         limiter := SimpleRateLimiter.recordUsage
           (SimpleRateLimiter.checkLimit st.limiter uid .reschedule).2 uid .reschedule,
         providerCalls := st.providerCalls + 1,
         checkCalls := st.checkCalls + 1,
         recordCalls := st.recordCalls + 1 }) := by
  have hget := SimpleCache.get_miss st.cache now
    (AIService.rescheduleCacheKey input) hmiss
  unfold AIService.generateReschedule
  dsimp only
  rw [hget]
  simp only [hallow, if_true]
  exact generateRescheduleModelPath_ok_user env input uid now
    (AIService.rescheduleCacheKey input) _ txt parsed hprov hparse

/-- The reschedule kind: cached idempotence of `generateReschedule`. -/
theorem generateReschedule_cached_idempotent (env : GenRescheduleEnv)
    (input : GenerateRescheduleInput) (uid : String)
    (st0 : GenKindState RescheduleContent) (t1 t2 : Nat) (txt : String)
    (parsed : ParsedReschedule)
    (hmiss : SimpleCache.lookupEntry st0.cache.entries
      (AIService.rescheduleCacheKey input) = none)
    (hallow : (SimpleRateLimiter.checkLimit st0.limiter uid .reschedule).1.allowed = true)
    (hprov : env.provider st0.providerCalls = .ok txt)
    (hparse : env.parse txt = .ok parsed)
    (httl : t2 - t1 ≤ CACHE_TTL_RESCHEDULE_GENERATION) :
    (AIService.generateReschedule env input (some uid) t1 st0).1 =
      .ok (AIService.transformReschedule parsed) ∧
    (AIService.generateReschedule env input (some uid) t2
        (AIService.generateReschedule env input (some uid) t1 st0).2).1 =
      (AIService.generateReschedule env input (some uid) t1 st0).1 ∧
    (AIService.generateReschedule env input (some uid) t1 st0).2.providerCalls =
      st0.providerCalls + 1 ∧
    (AIService.generateReschedule env input (some uid) t1 st0).2.checkCalls =
      st0.checkCalls + 1 ∧
    (AIService.generateReschedule env input (some uid) t1 st0).2.recordCalls =
      st0.recordCalls + 1 ∧
    (AIService.generateReschedule env input (some uid) t2
        (AIService.generateReschedule env input (some uid) t1 st0).2).2.providerCalls =
      (AIService.generateReschedule env input (some uid) t1 st0).2.providerCalls ∧
    (AIService.generateReschedule env input (some uid) t2
        (AIService.generateReschedule env input (some uid) t1 st0).2).2.checkCalls =
      (AIService.generateReschedule env input (some uid) t1 st0).2.checkCalls ∧
    (AIService.generateReschedule env input (some uid) t2
        (AIService.generateReschedule env input (some uid) t1 st0).2).2.recordCalls =
      (AIService.generateReschedule env input (some uid) t1 st0).2.recordCalls ∧
    (AIService.generateReschedule env input (some uid) t2
        (AIService.generateReschedule env input (some uid) t1 st0).2).2.limiter =
      (AIService.generateReschedule env input (some uid) t1 st0).2.limiter ∧
    (AIService.generateReschedule env input (some uid) t2
        (AIService.generateReschedule env input (some uid) t1 st0).2).2.cache.entries =
      (AIService.generateReschedule env input (some uid) t1 st0).2.cache.entries := by
  have hrun1 := generateReschedule_miss_allowed env input uid t1 st0 txt parsed
    hmiss hallow hprov hparse
  have hhit := SimpleCache.get_hit_after_set
    { st0.cache with stats := { st0.cache.stats with
        misses := st0.cache.stats.misses + 1 } }
    (AIService.rescheduleCacheKey input) (AIService.transformReschedule parsed)
    CACHE_TTL_RESCHEDULE_GENERATION t1 t2 httl
  have hrun2 := generateReschedule_cache_hit env input (some uid) t2
    (AIService.generateReschedule env input (some uid) t1 st0).2
    (AIService.transformReschedule parsed) _
    (by rw [hrun1]; exact hhit)
  rw [hrun2, hrun1]
  refine ⟨rfl, rfl, rfl, rfl, rfl, rfl, rfl, rfl, rfl, rfl⟩

/-! ## Claim C3 — cached idempotence of generation, all three kinds -/

/-- C3: for each of the three generation kinds — plan, briefing, reschedule —
two calls with the same user and identical normalized parameters, the second
within the first's TTL, where the key is initially uncached, the limiter
allows the request and the model answers and parses on the first attempt: the
first call performs the model path (provider invoked once, `checkLimit` and
`recordUsage` invoked once, result cached); the second call returns exactly
the first call's content from the cache immediately and touches nothing — no
provider invocation, no `checkLimit`, no `recordUsage`, no cache entry
written (only the hit statistic moves), hence also nothing for a caller to
persist a second `Suggestion` row from. -/
theorem generate_cached_idempotent_all_kinds :
    (∀ (env : GenPlanEnv) (input : GeneratePlanInput) (uid : String)
       (st0 : GenState) (t1 t2 : Nat) (txt : String) (parsed : ParsedPlan),
      SimpleCache.lookupEntry st0.cache.entries (AIService.planCacheKey input) = none →
      (SimpleRateLimiter.checkLimit st0.limiter uid .plan).1.allowed = true →
      env.provider st0.providerCalls = .ok txt →
      env.parse txt = .ok parsed →
      t2 - t1 ≤ CACHE_TTL_PLAN_GENERATION →
      (AIService.generatePlan env input (some uid) t1 st0).1 =
        .ok (AIService.transformPlan env parsed) ∧
      (AIService.generatePlan env input (some uid) t2
          (AIService.generatePlan env input (some uid) t1 st0).2).1 =
        (AIService.generatePlan env input (some uid) t1 st0).1 ∧
      (AIService.generatePlan env input (some uid) t1 st0).2.providerCalls =
        st0.providerCalls + 1 ∧
      (AIService.generatePlan env input (some uid) t1 st0).2.checkCalls =
        st0.checkCalls + 1 ∧
      (AIService.generatePlan env input (some uid) t1 st0).2.recordCalls =
        st0.recordCalls + 1 ∧
      (AIService.generatePlan env input (some uid) t2
          (AIService.generatePlan env input (some uid) t1 st0).2).2.providerCalls =
        (AIService.generatePlan env input (some uid) t1 st0).2.providerCalls ∧
      (AIService.generatePlan env input (some uid) t2
          (AIService.generatePlan env input (some uid) t1 st0).2).2.checkCalls =
        (AIService.generatePlan env input (some uid) t1 st0).2.checkCalls ∧
      (AIService.generatePlan env input (some uid) t2
          (AIService.generatePlan env input (some uid) t1 st0).2).2.recordCalls =
        (AIService.generatePlan env input (some uid) t1 st0).2.recordCalls ∧
      (AIService.generatePlan env input (some uid) t2
          (AIService.generatePlan env input (some uid) t1 st0).2).2.limiter =
        (AIService.generatePlan env input (some uid) t1 st0).2.limiter ∧
      (AIService.generatePlan env input (some uid) t2
          (AIService.generatePlan env input (some uid) t1 st0).2).2.cache.entries =
        (AIService.generatePlan env input (some uid) t1 st0).2.cache.entries) ∧
    (∀ (env : GenBriefingEnv) (input : GenerateBriefingInput) (uid : String)
       (st0 : GenKindState BriefingContent) (t1 t2 : Nat) (txt : String)
       (parsed : ParsedBriefing),
      SimpleCache.lookupEntry st0.cache.entries
        (AIService.briefingCacheKey input) = none →
      (SimpleRateLimiter.checkLimit st0.limiter uid .briefing).1.allowed = true →
      env.provider st0.providerCalls = .ok txt →
      env.parse txt = .ok parsed →
      t2 - t1 ≤ CACHE_TTL_BRIEFING_GENERATION →
      (AIService.generateBriefing env input (some uid) t1 st0).1 =
        .ok (AIService.transformBriefing input parsed) ∧
      (AIService.generateBriefing env input (some uid) t2
          (AIService.generateBriefing env input (some uid) t1 st0).2).1 =
        (AIService.generateBriefing env input (some uid) t1 st0).1 ∧
      (AIService.generateBriefing env input (some uid) t1 st0).2.providerCalls =
        st0.providerCalls + 1 ∧
      (AIService.generateBriefing env input (some uid) t1 st0).2.checkCalls =
        st0.checkCalls + 1 ∧
      (AIService.generateBriefing env input (some uid) t1 st0).2.recordCalls =
        st0.recordCalls + 1 ∧
      (AIService.generateBriefing env input (some uid) t2
          (AIService.generateBriefing env input (some uid) t1 st0).2).2.providerCalls =
        (AIService.generateBriefing env input (some uid) t1 st0).2.providerCalls ∧
      (AIService.generateBriefing env input (some uid) t2
          (AIService.generateBriefing env input (some uid) t1 st0).2).2.checkCalls =
        (AIService.generateBriefing env input (some uid) t1 st0).2.checkCalls ∧
      (AIService.generateBriefing env input (some uid) t2
          (AIService.generateBriefing env input (some uid) t1 st0).2).2.recordCalls =
        (AIService.generateBriefing env input (some uid) t1 st0).2.recordCalls ∧
      (AIService.generateBriefing env input (some uid) t2
          (AIService.generateBriefing env input (some uid) t1 st0).2).2.limiter =
        (AIService.generateBriefing env input (some uid) t1 st0).2.limiter ∧
      (AIService.generateBriefing env input (some uid) t2
          (AIService.generateBriefing env input (some uid) t1 st0).2).2.cache.entries =
        (AIService.generateBriefing env input (some uid) t1 st0).2.cache.entries) ∧
    (∀ (env : GenRescheduleEnv) (input : GenerateRescheduleInput) (uid : String)
       (st0 : GenKindState RescheduleContent) (t1 t2 : Nat) (txt : String)
       (parsed : ParsedReschedule),
      SimpleCache.lookupEntry st0.cache.entries
        (AIService.rescheduleCacheKey input) = none →
      (SimpleRateLimiter.checkLimit st0.limiter uid .reschedule).1.allowed = true →
      env.provider st0.providerCalls = .ok txt →
      env.parse txt = .ok parsed →
      t2 - t1 ≤ CACHE_TTL_RESCHEDULE_GENERATION →
      (AIService.generateReschedule env input (some uid) t1 st0).1 =
        .ok (AIService.transformReschedule parsed) ∧
      (AIService.generateReschedule env input (some uid) t2
          (AIService.generateReschedule env input (some uid) t1 st0).2).1 =
        (AIService.generateReschedule env input (some uid) t1 st0).1 ∧
      (AIService.generateReschedule env input (some uid) t1 st0).2.providerCalls =
        st0.providerCalls + 1 ∧
      (AIService.generateReschedule env input (some uid) t1 st0).2.checkCalls =
        st0.checkCalls + 1 ∧
      (AIService.generateReschedule env input (some uid) t1 st0).2.recordCalls =
        st0.recordCalls + 1 ∧
      (AIService.generateReschedule env input (some uid) t2
          (AIService.generateReschedule env input (some uid) t1 st0).2).2.providerCalls =
        (AIService.generateReschedule env input (some uid) t1 st0).2.providerCalls ∧
      (AIService.generateReschedule env input (some uid) t2
          (AIService.generateReschedule env input (some uid) t1 st0).2).2.checkCalls =
        (AIService.generateReschedule env input (some uid) t1 st0).2.checkCalls ∧
      (AIService.generateReschedule env input (some uid) t2
          (AIService.generateReschedule env input (some uid) t1 st0).2).2.recordCalls =
        (AIService.generateReschedule env input (some uid) t1 st0).2.recordCalls ∧
      (AIService.generateReschedule env input (some uid) t2
          (AIService.generateReschedule env input (some uid) t1 st0).2).2.limiter =
        (AIService.generateReschedule env input (some uid) t1 st0).2.limiter ∧
      (AIService.generateReschedule env input (some uid) t2
          (AIService.generateReschedule env input (some uid) t1 st0).2).2.cache.entries =
        (AIService.generateReschedule env input (some uid) t1 st0).2.cache.entries) :=
  ⟨fun env input uid st0 t1 t2 txt parsed hmiss hallow hprov hparse httl =>
    generatePlan_cached_idempotent env input uid st0 t1 t2 txt parsed
      hmiss hallow hprov hparse httl,
   fun env input uid st0 t1 t2 txt parsed hmiss hallow hprov hparse httl =>
    generateBriefing_cached_idempotent env input uid st0 t1 t2 txt parsed
      hmiss hallow hprov hparse httl,
   fun env input uid st0 t1 t2 txt parsed hmiss hallow hprov hparse httl =>
    generateReschedule_cached_idempotent env input uid st0 t1 t2 txt parsed
      hmiss hallow hprov hparse httl⟩

/-- Concrete briefing environment for the C3 witness. -/
def briefingEnv0 : GenBriefingEnv :=
  { provider := fun _ => .ok "{}",
    parse := fun _ => .ok { greeting := none, task_priorities := none },
    showTime := fun _ => "00:00:00" }

/-- Concrete briefing request. -/
def briefingInput0 : GenerateBriefingInput :=
  { currentDate := "2026-05-01", todaysTasks := [⟨"Review goals", .high⟩] }

/-- Fresh briefing-kind state. -/
def briefingState0 : GenKindState BriefingContent :=
  { cache := SimpleCache.init BriefingContent,
    limiter := SimpleRateLimiter.init DEFAULT_RATE_LIMITS,
    providerCalls := 0, checkCalls := 0, recordCalls := 0 }

/-- Concrete reschedule environment for the C3 witness. -/
def rescheduleEnv0 : GenRescheduleEnv :=
  { provider := fun _ => .ok "{}",
    parse := fun _ => .ok { rescheduling_strategy := none, task_movements := none },
    showTime := fun _ => "00:00:00",
    today := 0,
    isoDate := fun n => toString n,
    parseDate := fun _ => 0 }

/-- Concrete reschedule request. -/
def rescheduleInput0 : GenerateRescheduleInput :=
  { currentWeek := "Week of 5/1/2026", backlogTasks := [] }

/-- Fresh reschedule-kind state. -/
def rescheduleState0 : GenKindState RescheduleContent :=
  { cache := SimpleCache.init RescheduleContent,
    limiter := SimpleRateLimiter.init DEFAULT_RATE_LIMITS,
    providerCalls := 0, checkCalls := 0, recordCalls := 0 }

/-- C3 witness: each kind instantiated at a fresh state with a provider that
answers `"{}"` at once, a first call at time 0 and a second at time 100
(within every kind's TTL): the second call returns the first call's content
and the provider was invoked exactly once by the first call, never by the
second. -/
theorem generate_cached_idempotent_all_kinds_witness :
    ((AIService.generatePlan emptyPlanEnv planInput0 (some "u") 100
        (AIService.generatePlan emptyPlanEnv planInput0 (some "u") 0 genState0).2).1 =
      (AIService.generatePlan emptyPlanEnv planInput0 (some "u") 0 genState0).1 ∧
     (AIService.generatePlan emptyPlanEnv planInput0 (some "u") 0
        genState0).2.providerCalls = genState0.providerCalls + 1 ∧
     (AIService.generatePlan emptyPlanEnv planInput0 (some "u") 100
        (AIService.generatePlan emptyPlanEnv planInput0 (some "u") 0
          genState0).2).2.providerCalls =
      (AIService.generatePlan emptyPlanEnv planInput0 (some "u") 0
        genState0).2.providerCalls) ∧
    ((AIService.generateBriefing briefingEnv0 briefingInput0 (some "u") 100
        (AIService.generateBriefing briefingEnv0 briefingInput0 (some "u") 0
          briefingState0).2).1 =
      (AIService.generateBriefing briefingEnv0 briefingInput0 (some "u") 0
        briefingState0).1 ∧
     (AIService.generateBriefing briefingEnv0 briefingInput0 (some "u") 0
        briefingState0).2.providerCalls = briefingState0.providerCalls + 1 ∧
     (AIService.generateBriefing briefingEnv0 briefingInput0 (some "u") 100
        (AIService.generateBriefing briefingEnv0 briefingInput0 (some "u") 0
          briefingState0).2).2.providerCalls =
      (AIService.generateBriefing briefingEnv0 briefingInput0 (some "u") 0
        briefingState0).2.providerCalls) ∧
    ((AIService.generateReschedule rescheduleEnv0 rescheduleInput0 (some "u") 100
        (AIService.generateReschedule rescheduleEnv0 rescheduleInput0 (some "u") 0
          rescheduleState0).2).1 =
      (AIService.generateReschedule rescheduleEnv0 rescheduleInput0 (some "u") 0
        rescheduleState0).1 ∧
     (AIService.generateReschedule rescheduleEnv0 rescheduleInput0 (some "u") 0
        rescheduleState0).2.providerCalls = rescheduleState0.providerCalls + 1 ∧
     (AIService.generateReschedule rescheduleEnv0 rescheduleInput0 (some "u") 100
        (AIService.generateReschedule rescheduleEnv0 rescheduleInput0 (some "u") 0
          rescheduleState0).2).2.providerCalls =
      (AIService.generateReschedule rescheduleEnv0 rescheduleInput0 (some "u") 0
        rescheduleState0).2.providerCalls) := by
  have hp := generate_cached_idempotent_all_kinds.1 emptyPlanEnv planInput0 "u"
    genState0 0 100 "{}" ⟨none⟩ rfl (by decide) rfl rfl (by decide)
  have hb := generate_cached_idempotent_all_kinds.2.1 briefingEnv0 briefingInput0 "u"
    briefingState0 0 100 "{}" ⟨none, none⟩ rfl (by decide) rfl rfl (by decide)
  have hr := generate_cached_idempotent_all_kinds.2.2 rescheduleEnv0 rescheduleInput0
    "u" rescheduleState0 0 100 "{}" ⟨none, none⟩ rfl (by decide) rfl rfl (by decide)
  exact ⟨⟨hp.2.1, hp.2.2.1, hp.2.2.2.2.2.1⟩,
    ⟨hb.2.1, hb.2.2.1, hb.2.2.2.2.2.1⟩,
    ⟨hr.2.1, hr.2.2.1, hr.2.2.2.2.2.1⟩⟩

end Monthly
